import Mathlib

/-! # fabric.Canvas (src/canvas.class.js): interactive selection and transform

A shallow embedding of the interactive methods of `fabric.Canvas`:
hit-testing (`findTarget`, `isTargetTransparent`), the selection slots
(`_activeObject`, `_activeGroup`), marquee and shift-click grouping, the
transform session (`_setupCurrentTransform`, `_translateObject`,
`_scaleObject`, `_rotateObject`, `_resetCurrentTransform`) and `createLayer`.

Conventions of the embedding.

* JavaScript numbers are modelled by exact rationals `ℚ`; rounding is outside
  the model, and in `ℚ`, `x / 0 = 0`. The values `NaN` / `Infinity` are
  modelled only for the quotients of the 'equally' branch of `_scaleObject`
  (`JSNumber`, `equallyFactors`).
* JavaScript truthiness of flags is modelled by `Bool`, and `null` /
  `undefined` / `false` results by `Option`.
* Objects live in a field-indexed store: `Canvas.shape`, `Canvas.active` and
  `Canvas.members` map an object reference to its geometry record, its
  `active` property and (for a group) its `objects` array.
* The methods of `fabric.Object`, `fabric.Group`, `fabric.StaticCanvas` and of
  the 2d context that `canvas.class.js` calls but does not define are the
  fields of `ObjectModel`, a parameter of every operation that calls them.
* Event listeners (`fire`) receive notifications only and are not modelled.
-/

namespace Fabric

/-! ## Data model -/

/-- Horizontal anchor names: the strings 'left', 'center', 'right'. -/
inductive OriginX where
  | left | center | right
  deriving DecidableEq

/-- Vertical anchor names: the strings 'top', 'center', 'bottom'. -/
inductive OriginY where
  | top | center | bottom
  deriving DecidableEq

/-- Handle names returned by `_findTargetCorner` when a handle is hit. -/
inductive Corner where
  | tl | tr | bl | br | ml | mr | mt | mb | mtr
  deriving DecidableEq

/-- Session actions: the strings 'drag', 'scaleX', 'scaleY', 'rotate', 'scale'. -/
inductive Action where
  | drag | scaleX | scaleY | rotate | scale
  deriving DecidableEq

/-- Third argument of `_scaleObject`: absent (falsy), 'equally', 'x', 'y', or
any other string. -/
inductive ScaleBy where
  | unset | equally | x | y | other
  deriving DecidableEq

/-- A `fabric.Point`, also used for plain `{x, y}` pointers. -/
structure Point where
  x : ℚ
  y : ℚ
  deriving DecidableEq

/-- The canvas offset `this._offset`. -/
structure Offset where
  left : ℚ
  top : ℚ
  deriving DecidableEq

/-- References to objects (shapes and groups) in the object store. -/
abbrev Ref := Nat

/-- The properties of a `fabric.Object` read or written by the canvas.
`isGroup` stands for `type === 'group'`. -/
structure FObject where
  isGroup : Bool
  left : ℚ
  top : ℚ
  width : ℚ
  height : ℚ
  scaleX : ℚ
  scaleY : ℚ
  angle : ℚ
  padding : ℚ
  strokeWidth : ℚ
  originX : OriginX
  originY : OriginY
  lockMovementX : Bool
  lockMovementY : Bool
  lockScalingX : Bool
  lockScalingY : Bool
  lockUniScaling : Bool
  lockRotation : Bool
  centerTransform : Bool
  selectable : Bool
  visible : Bool
  hasBorders : Bool
  transparentCorners : Bool
  deriving DecidableEq

/-- A pointer event: the page coordinates that `fabric.util.getPointer`
reads from it, and its modifier keys. -/
structure Event where
  x : ℚ
  y : ℚ
  altKey : Bool
  shiftKey : Bool
  deriving DecidableEq

/-- The snapshot `this._currentTransform.original`. -/
structure Original where
  left : ℚ
  top : ℚ
  scaleX : ℚ
  scaleY : ℚ
  originX : OriginX
  originY : OriginY
  deriving DecidableEq

/-- The session object `this._currentTransform`. The field `target` holds the
current state of the object that `t.target` refers to. -/
structure Transform where
  target : FObject
  action : Action
  scaleX : ℚ
  scaleY : ℚ
  offsetX : ℚ
  offsetY : ℚ
  originX : OriginX
  originY : OriginY
  ex : ℚ
  ey : ℚ
  left : ℚ
  top : ℚ
  theta : ℚ
  width : ℚ
  mouseXSign : ℚ
  mouseYSign : ℚ
  original : Original
  deriving DecidableEq

/-- The drag rectangle `this._groupSelector`: start corner and signed extent. -/
structure GroupSelector where
  ex : ℚ
  ey : ℚ
  left : ℚ
  top : ℚ
  deriving DecidableEq

/-- The methods the canvas calls on its collaborators (`fabric.Object`,
`fabric.Group` geometry, `fabric.StaticCanvas`, the cache 2d context and
`fabric.util`), none of which `canvas.class.js` defines. -/
structure ObjectModel where
  /-- The method `object.containsPoint(point)`. -/
  containsPoint : FObject → Point → Bool
  /-- The method `object._findTargetCorner(pointer, offset)`. -/
  _findTargetCorner : FObject → Point → Offset → Option Corner
  /-- The method `object.intersectsWithRect(p1, p2)`. -/
  intersectsWithRect : FObject → Point → Point → Bool
  /-- The method `object.isContainedWithinRect(p1, p2)`. -/
  isContainedWithinRect : FObject → Point → Point → Bool
  /-- The method `object.getCenterPoint()`. -/
  getCenterPoint : FObject → Point
  /-- The method `object.translateToOriginPoint(center, originX, originY)`. -/
  translateToOriginPoint : FObject → Point → OriginX → OriginY → Point
  /-- The method `object.toLocalPoint(point, originX, originY)`. -/
  toLocalPoint : FObject → Point → OriginX → OriginY → Point
  /-- The new `(left, top)` written by
  `object.setPositionByOrigin(pos, originX, originY)`. -/
  setPositionByOrigin : FObject → Point → OriginX → OriginY → Point
  /-- The method `canvas.getObjectBySerial(r, g, b, a)`. -/
  getObjectBySerial : Nat → Nat → Nat → Nat → Option Ref
  /-- The bytes `contextCache.getImageData(x, y, w, h).data`, by byte offset. -/
  getImageData : ℚ → ℚ → ℚ → ℚ → Nat → Nat
  /-- The function `fabric.util.degreesToRadians`. -/
  degreesToRadians : ℚ → ℚ
  /-- The function `fabric.util.radiansToDegrees`. -/
  radiansToDegrees : ℚ → ℚ
  /-- The function `Math.atan2(y, x)`, as a function on the rational model
  of numbers. -/
  atan2 : ℚ → ℚ → ℚ
  /-- The geometry record `new fabric.Group(objects)` computes for itself. -/
  groupShape : (Ref → FObject) → List Ref → FObject

/-- The state of a `fabric.Canvas` read or written by the selection and
hit-testing methods. -/
structure Canvas where
  /-- Geometry and flags of every object, by reference. -/
  shape : Ref → FObject
  /-- The `active` property of every object. -/
  active : Ref → Bool
  /-- The `objects` array of every group. -/
  members : Ref → List Ref
  /-- The canvas list `this._objects`, lowest z-order first. -/
  _objects : List Ref
  _activeObject : Option Ref
  _activeOffset : Option Offset
  _activeGroup : Option Ref
  _groupSelector : GroupSelector
  _offset : Offset
  selection : Bool
  centerTransform : Bool
  controlsAboveOverlay : Bool
  lastRenderedObjectWithControlsAboveOverlay : Option Ref
  /-- The reference the next `new fabric.Group` receives. -/
  nextRef : Ref

/-! ## Transform session -/

/-- `_resetCurrentTransform(e)`: restore the snapshot and choose the anchor. -/
def _resetCurrentTransform (c : Canvas) (e : Event) (t : Transform) : Transform :=
  let target : FObject :=
    { t.target with
      scaleX := t.original.scaleX
      scaleY := t.original.scaleY
      left := t.original.left
      top := t.original.top }
  let t : Transform := { t with target := target }
  if e.altKey || c.centerTransform || t.target.centerTransform then
    let t : Transform :=
      if t.originX ≠ OriginX.center then
        if t.originX = OriginX.right then { t with mouseXSign := -1 }
        else { t with mouseXSign := 1 }
      else t
    let t : Transform :=
      if t.originY ≠ OriginY.center then
        if t.originY = OriginY.bottom then { t with mouseYSign := -1 }
        else { t with mouseYSign := 1 }
      else t
    { t with originX := OriginX.center, originY := OriginY.center }
  else
    { t with originX := t.original.originX, originY := t.original.originY }

/-- `canvas.getPointer(e)`: pointer coordinates relative to the canvas. -/
def getPointer (c : Canvas) (e : Event) : Point :=
  { x := e.x - c._offset.left, y := e.y - c._offset.top }

/-- `_setupCurrentTransform(e, target)`: the new value of
`this._currentTransform`, given its old value `cur`. -/
def _setupCurrentTransform (M : ObjectModel) (c : Canvas) (e : Event)
    (target : Option FObject) (cur : Option Transform) : Option Transform :=
  match target with
  | none => cur
  | some target =>
    let pointer : Point := { x := e.x, y := e.y }
    let corner := M._findTargetCorner target (getPointer c e) c._offset
    let action : Action :=
      match corner with
      | none => Action.drag
      | some k =>
        if k = Corner.ml ∨ k = Corner.mr then Action.scaleX
        else if k = Corner.mt ∨ k = Corner.mb then Action.scaleY
        else if k = Corner.mtr then Action.rotate
        else Action.scale
    let originX : OriginX :=
      if corner = some Corner.ml ∨ corner = some Corner.tl ∨ corner = some Corner.bl then
        OriginX.right
      else if corner = some Corner.mr ∨ corner = some Corner.tr ∨ corner = some Corner.br then
        OriginX.left
      else OriginX.center
    let originY : OriginY :=
      if corner = some Corner.tl ∨ corner = some Corner.mt ∨ corner = some Corner.tr then
        OriginY.bottom
      else if corner = some Corner.bl ∨ corner = some Corner.mb ∨ corner = some Corner.br then
        OriginY.top
      else OriginY.center
    let originX : OriginX := if corner = some Corner.mtr then OriginX.center else originX
    let originY : OriginY := if corner = some Corner.mtr then OriginY.center else originY
    let t : Transform :=
      { target := target
        action := action
        scaleX := target.scaleX
        scaleY := target.scaleY
        offsetX := pointer.x - target.left
        offsetY := pointer.y - target.top
        originX := originX
        originY := originY
        ex := pointer.x
        ey := pointer.y
        left := target.left
        top := target.top
        theta := M.degreesToRadians target.angle
        width := target.width * target.scaleX
        mouseXSign := 1
        mouseYSign := 1
        original :=
          { left := target.left
            top := target.top
            scaleX := target.scaleX
            scaleY := target.scaleY
            originX := originX
            originY := originY } }
    some (_resetCurrentTransform c e t)

/-- The sign bookkeeping of `_scaleObject` on one axis of `localMouse`:
`far` says the anchor is the far edge ('right' / 'bottom'), `mid` that it is
'center'. Returns the adjusted coordinate and the new sign flag. -/
def adjustLocal (far mid : Bool) (v sign : ℚ) : ℚ × ℚ :=
  if far then (v * (-1), sign)
  else if mid then
    let v := v * (sign * 2)
    if v < 0 then (v, -sign) else (v, sign)
  else (v, sign)

/-- The padding adjustment of `_scaleObject` on one axis of `localMouse`. -/
def adjustPadding (v padding : ℚ) : ℚ :=
  if |v| > padding then
    if v < 0 then v + padding else v - padding
  else 0

/-- The block "Actually scale the object" of `_scaleObject`: the factors
`newScaleX`, `newScaleY` and the target after its `set` calls, from the
padding-adjusted local offsets `localX`, `localY`. The quotients are exact
rationals; on a zero divisor, where JavaScript gives an infinity or NaN, the
value here is 0 (`equallyFactors` gives the 'equally' branch with the
non-finite values). -/
def applyScale (target : FObject) (original : Original) (by_ : ScaleBy) (localX localY : ℚ) :
    ℚ × ℚ × FObject :=
  let lockScalingX := target.lockScalingX
  let lockScalingY := target.lockScalingY
  if by_ = ScaleBy.equally ∧ lockScalingX = false ∧ lockScalingY = false then
    let dist := localY + localX
    let lastDist := (target.height + target.strokeWidth) * original.scaleY +
      (target.width + target.strokeWidth) * original.scaleX
    -- We use t.scaleX/Y instead of target.scaleX/Y because the object may have a min scale
    let newScaleX := original.scaleX * dist / lastDist
    let newScaleY := original.scaleY * dist / lastDist
    (newScaleX, newScaleY, { target with scaleX := newScaleX, scaleY := newScaleY })
  else if by_ = ScaleBy.unset then
    let newScaleX := localX / (target.width + target.strokeWidth)
    let newScaleY := localY / (target.height + target.strokeWidth)
    let target := if lockScalingX then target else { target with scaleX := newScaleX }
    let target := if lockScalingY then target else { target with scaleY := newScaleY }
    (newScaleX, newScaleY, target)
  else if by_ = ScaleBy.x ∧ target.lockUniScaling = false then
    let newScaleX := localX / (target.width + target.strokeWidth)
    (newScaleX, target.scaleY,
      if lockScalingX then target else { target with scaleX := newScaleX })
  else if by_ = ScaleBy.y ∧ target.lockUniScaling = false then
    let newScaleY := localY / (target.height + target.strokeWidth)
    (target.scaleX, newScaleY,
      if lockScalingY then target else { target with scaleY := newScaleY })
  else (target.scaleX, target.scaleY, target)

/-- The block "Check if we flipped" of `_scaleObject`: swap the anchor of an
axis whose new factor is negative. -/
def checkFlipped (t : Transform) (newScaleX newScaleY : ℚ) : Transform :=
  let t : Transform :=
    if newScaleX < 0 then
      if t.originX = OriginX.left then { t with originX := OriginX.right }
      else if t.originX = OriginX.right then { t with originX := OriginX.left }
      else t
    else t
  if newScaleY < 0 then
    if t.originY = OriginY.top then { t with originY := OriginY.bottom }
    else if t.originY = OriginY.bottom then { t with originY := OriginY.top }
    else t
  else t

/-- `_scaleObject(x, y, by)` acting on the session `t` (and its target). -/
def _scaleObject (M : ObjectModel) (c : Canvas) (t : Transform) (x y : ℚ)
    (by_ : ScaleBy) : Transform :=
  let offset := c._offset
  let target := t.target
  let lockScalingX := target.lockScalingX
  let lockScalingY := target.lockScalingY
  if lockScalingX && lockScalingY then t else
  -- Get the constraint point
  let constraintPosition :=
    M.translateToOriginPoint target (M.getCenterPoint target) t.originX t.originY
  let localMouse :=
    M.toLocalPoint target { x := x - offset.left, y := y - offset.top } t.originX t.originY
  let ax := adjustLocal (t.originX = OriginX.right) (t.originX = OriginX.center)
    localMouse.x t.mouseXSign
  let ay := adjustLocal (t.originY = OriginY.bottom) (t.originY = OriginY.center)
    localMouse.y t.mouseYSign
  let t : Transform := { t with mouseXSign := ax.2, mouseYSign := ay.2 }
  -- adjust the mouse coordinates when dealing with padding
  let localX := adjustPadding ax.1 target.padding
  let localY := adjustPadding ay.1 target.padding
  -- Actually scale the object
  let scaled := applyScale target t.original by_ localX localY
  -- Check if we flipped
  let t := checkFlipped t scaled.1 scaled.2.1
  -- Make sure the constraints apply
  let pos := M.setPositionByOrigin scaled.2.2 constraintPosition t.originX t.originY
  { t with target := { scaled.2.2 with left := pos.x, top := pos.y } }

/-- The local pointer offsets that `_scaleObject` computes before scaling,
after the sign bookkeeping and the padding adjustment, with the updated sign
flags: (localMouse.x, localMouse.y, mouseXSign, mouseYSign). -/
def scaleLocal (M : ObjectModel) (c : Canvas) (t : Transform) (x y : ℚ) : ℚ × ℚ × ℚ × ℚ :=
  let localMouse := M.toLocalPoint t.target
    { x := x - c._offset.left, y := y - c._offset.top } t.originX t.originY
  let ax := adjustLocal (t.originX = OriginX.right) (t.originX = OriginX.center)
    localMouse.x t.mouseXSign
  let ay := adjustLocal (t.originY = OriginY.bottom) (t.originY = OriginY.center)
    localMouse.y t.mouseYSign
  (adjustPadding ax.1 t.target.padding, adjustPadding ay.1 t.target.padding, ax.2, ay.2)

/-- The factors (newScaleX, newScaleY) that a call `_scaleObject(x, y, by)`
computes, whether or not they are stored in the target. -/
def scaleFactors (M : ObjectModel) (c : Canvas) (t : Transform) (x y : ℚ) (by_ : ScaleBy) :
    ℚ × ℚ :=
  let l := scaleLocal M c t x y
  let scaled := applyScale t.target t.original by_ l.1 l.2.1
  (scaled.1, scaled.2.1)

/-- The target of a call `_scaleObject(x, y, by)` after its `set` calls and
before it is re-anchored. -/
def scaledTarget (M : ObjectModel) (c : Canvas) (t : Transform) (x y : ℚ) (by_ : ScaleBy) :
    FObject :=
  let l := scaleLocal M c t x y
  (applyScale t.target t.original by_ l.1 l.2.1).2.2

/-- The session of a call `_scaleObject(x, y, by)` after the sign bookkeeping
and the flip check, before the target is re-anchored. -/
def flippedSession (M : ObjectModel) (c : Canvas) (t : Transform) (x y : ℚ) (by_ : ScaleBy) :
    Transform :=
  let l := scaleLocal M c t x y
  checkFlipped { t with mouseXSign := l.2.2.1, mouseYSign := l.2.2.2 }
    (scaleFactors M c t x y by_).1 (scaleFactors M c t x y by_).2

/-- `_translateObject(x, y)` acting on the session `t` (and its target). -/
def _translateObject (t : Transform) (x y : ℚ) : Transform :=
  let target := t.target
  let target := if target.lockMovementX then target else { target with left := x - t.offsetX }
  let target := if target.lockMovementY then target else { target with top := y - t.offsetY }
  { t with target := target }

/-- `_rotateObject(x, y)` acting on the session `t` (and its target). -/
def _rotateObject (M : ObjectModel) (c : Canvas) (t : Transform) (x y : ℚ) : Transform :=
  let o := c._offset
  if t.target.lockRotation then t else
  let lastAngle := M.atan2 (t.ey - t.top - o.top) (t.ex - t.left - o.left)
  let curAngle := M.atan2 (y - t.top - o.top) (x - t.left - o.left)
  { t with target := { t.target with angle := M.radiansToDegrees (curAngle - lastAngle + t.theta) } }

/-! ## Groups -/

/-- Modelled from the spec: `group.contains(object)`: a group is an ordered
collection of shape references (`fabric.Group` is not part of
`canvas.class.js`). -/
def groupContains (c : Canvas) (g o : Ref) : Bool := decide (o ∈ c.members g)

/-- Modelled from the spec: `group.size()`, the number of members. -/
def groupSize (c : Canvas) (g : Ref) : Nat := (c.members g).length

/-- Modelled from the spec: `group.removeWithUpdate(object)` removes the
object from the member list (the first occurrence, as `Array.splice` at its
`indexOf`). -/
def removeWithUpdate (c : Canvas) (g o : Ref) : Canvas :=
  { c with members := Function.update c.members g ((c.members g).erase o) }

/-- Modelled from the spec: `group.addWithUpdate(object)` appends the object
to the member list. -/
def addWithUpdate (c : Canvas) (g o : Ref) : Canvas :=
  { c with members := Function.update c.members g (c.members g ++ [o]) }

/-- Modelled from the spec: `group.destroy()` releases the members; it
changes neither the selection slots nor the member list of the group. -/
def groupDestroy (c : Canvas) (_g : Ref) : Canvas := c

/-- Modelled from the spec: `group.saveCoords()` caches the bounding
coordinates of the group, which the canvas state does not hold. -/
def saveCoords (c : Canvas) (_g : Ref) : Canvas := c

/-- Modelled from the spec: `new fabric.Group(objects)`: a fresh object of
type 'group' whose member list is `objects` in the given order and whose
`active` property is unset; its geometry is computed by the object model. -/
def newGroup (M : ObjectModel) (c : Canvas) (objects : List Ref) : Ref × Canvas :=
  (c.nextRef,
    { c with
      shape := Function.update c.shape c.nextRef
        { M.groupShape c.shape objects with isGroup := true }
      active := Function.update c.active c.nextRef false
      members := Function.update c.members c.nextRef objects
      nextRef := c.nextRef + 1 })

/-- `object.set('active', value)`. -/
def setActive (c : Canvas) (o : Ref) (value : Bool) : Canvas :=
  { c with active := Function.update c.active o value }

/-! ## Hit-testing -/

/-- The scan table `findTargetPattern`. -/
def findTargetPattern : List Nat :=
  [96,128,124,120,100,92,72,68,64,160,156,152,148,144,132,116,104,88,76,60,48,44,40,36,32,
   192,188,184,180,176,172,168,164,140,136,112,108,84,80,56,52,28,24,20,16,12,8,4,0]

/-- The constant `findTargetPatternLength`. -/
def findTargetPatternLength : Nat := findTargetPattern.length

/-- The constant `findTargetPatternWidth`. -/
def findTargetPatternWidth : ℚ := 7

/-- The constant `findTargetPatternRadius`. -/
def findTargetPatternRadius : ℚ := 3

/-- `_normalizePointer(object, pointer)`. -/
def _normalizePointer (c : Canvas) (object : Ref) (pointer : Point) : Point :=
  match c._activeGroup with
  | some activeGroup =>
    if (c.shape object).isGroup = false ∧ groupContains c activeGroup object = true then
      { x := pointer.x - (c.shape activeGroup).left
        y := pointer.y - (c.shape activeGroup).top }
    else pointer
  | none => pointer

/-- `canvas.containsPoint(pointer, target)`: inside the target or on one of
its handles. -/
def containsPoint (M : ObjectModel) (c : Canvas) (pointer : Point) (target : Ref) : Bool :=
  let xy := _normalizePointer c target pointer
  M.containsPoint (c.shape target) xy ||
    (M._findTargetCorner (c.shape target) pointer c._offset).isSome

/-- The first guard of `findTarget`: the object it returns at once, if any. -/
def controlsAboveOverlayTarget (M : ObjectModel) (c : Canvas) (pointer : Point) : Option Ref :=
  if c.controlsAboveOverlay then
    match c.lastRenderedObjectWithControlsAboveOverlay with
    | some o =>
      if (c.shape o).visible && containsPoint M c pointer o &&
          (M._findTargetCorner (c.shape o) pointer c._offset).isSome then some o
      else none
    | none => none
  else none

/-- The second guard of `findTarget`: the active group, when it is hit and
not skipped. -/
def activeGroupTarget (M : ObjectModel) (c : Canvas) (pointer : Point) (skipGroup : Bool) :
    Option Ref :=
  match c._activeGroup with
  | some activeGroup =>
    if !skipGroup && containsPoint M c pointer activeGroup then some activeGroup else none
  | none => none

/-- The 7x7 window `contextCache.getImageData(...).data` read by `findTarget`. -/
def cacheWindow (M : ObjectModel) (pointer : Point) : Nat → Nat :=
  M.getImageData (pointer.x - findTargetPatternRadius) (pointer.y - findTargetPatternRadius)
    findTargetPatternWidth findTargetPatternWidth

/-- The object the pixel at byte offset `x` of `imageData` decodes to. -/
def pixelObject (M : ObjectModel) (imageData : Nat → Nat) (x : Nat) : Option Ref :=
  M.getObjectBySerial (imageData (x + 0)) (imageData (x + 1)) (imageData (x + 2))
    (imageData (x + 3))

/-- The sampling loop of `findTarget`: it runs while `target == null` and
entries of the scan table remain. -/
def scanPattern (M : ObjectModel) (imageData : Nat → Nat) : Option Ref → List Nat → Option Ref
  | some target, _ => some target
  | none, [] => none
  | none, x :: rest => scanPattern M imageData (pixelObject M imageData x) rest

/-- `findTarget(pointer, skipGroup)`. -/
def findTarget (M : ObjectModel) (c : Canvas) (pointer : Point) (skipGroup : Bool) : Option Ref :=
  match controlsAboveOverlayTarget M c pointer with
  | some target => some target
  | none =>
    match activeGroupTarget M c pointer skipGroup with
    | some target => some target
    | none => scanPattern M (cacheWindow M pointer) none findTargetPattern

/-! ## Selection -/

/-- `_shouldClearSelection(e, target)`, as a truth value. -/
def _shouldClearSelection (c : Canvas) (e : Event) (target : Option Ref) : Bool :=
  match target with
  | none => true
  | some target =>
    (match c._activeGroup with
      | some activeGroup =>
        !groupContains c activeGroup target && decide (activeGroup ≠ target) && !e.shiftKey
      | none => false) ||
    !(c.shape target).selectable

/-- `setActiveObject(object, e, offset)`; the event `e` is only passed on to
the listeners. -/
def setActiveObject (c : Canvas) (object : Ref) (offset : Option Offset) : Canvas :=
  let c := match c._activeObject with
    | some old => setActive c old false
    | none => c
  let c := { c with _activeObject := some object, _activeOffset := offset }
  setActive c object true

/-- `getActiveObject()`. -/
def getActiveObject (c : Canvas) : Option Ref := c._activeObject

/-- `discardActiveObject()`. -/
def discardActiveObject (c : Canvas) : Canvas :=
  let c := match c._activeObject with
    | some old => setActive c old false
    | none => c
  { c with _activeObject := none }

/-- `setActiveGroup(group)`. -/
def setActiveGroup (c : Canvas) (group : Option Ref) : Canvas :=
  let c := { c with _activeGroup := group }
  match group with
  | some g => setActive c g true
  | none => c

/-- `getActiveGroup()`. -/
def getActiveGroup (c : Canvas) : Option Ref := c._activeGroup

/-- `discardActiveGroup()`. -/
def discardActiveGroup (c : Canvas) : Canvas :=
  let c := match getActiveGroup c with
    | some g => groupDestroy c g
    | none => c
  setActiveGroup c none

/-- `deactivateAll()`. -/
def deactivateAll (c : Canvas) : Canvas :=
  let c := c._objects.foldl (fun c o => setActive c o false) c
  let c := discardActiveGroup c
  discardActiveObject c

/-- `_resetObjectTransform(target)`. -/
def _resetObjectTransform (c : Canvas) (target : Ref) : Canvas :=
  { c with
    shape := Function.update c.shape target
      { c.shape target with scaleX := 1, scaleY := 1, angle := 0 } }

/-- `_shouldHandleGroupLogic(e, target)`, as a truth value. -/
def _shouldHandleGroupLogic (c : Canvas) (e : Event) (target : Option Ref) : Bool :=
  let activeObject := getActiveObject c
  e.shiftKey &&
    ((getActiveGroup c).isSome || (activeObject.isSome && decide (activeObject ≠ target))) &&
    c.selection

/-- `Array.prototype.indexOf`: the first index of `a`, or -1. -/
def indexOf (l : List Ref) (a : Ref) : Int :=
  if a ∈ l then (l.indexOf a : Int) else -1

/-- The first step of `_handleGroupLogic`: when the target is the active
group itself, find the target again, skipping the group; `none` when the
method bails out. -/
def resolveGroupTarget (M : ObjectModel) (c : Canvas) (e : Event) (target : Ref) : Option Ref :=
  if some target = getActiveGroup c then
    let pointer := getPointer c e
    match findTarget M c pointer true with
    | none => none
    | some target => if (c.shape target).isGroup then none else some target
  else some target

/-- `_handleGroupLogic(e, target)`. -/
def _handleGroupLogic (M : ObjectModel) (c : Canvas) (e : Event) (target : Ref) : Canvas :=
  match resolveGroupTarget M c e target with
  | none => c
  | some target =>
    match getActiveGroup c with
    | some activeGroup =>
      let c :=
        if groupContains c activeGroup target then
          let c := removeWithUpdate c activeGroup target
          let c := _resetObjectTransform c activeGroup
          let c := setActive c target false
          if groupSize c activeGroup = 1 then
            -- remove group alltogether if after removal it only contains 1 object
            discardActiveGroup c
          else c
        else
          let c := addWithUpdate c activeGroup target
          _resetObjectTransform c activeGroup
      let c := setActive c activeGroup true
      saveCoords c activeGroup
    | none =>
      -- group does not exist
      let r : Canvas × Option Ref :=
        match c._activeObject with
        | some activeObject =>
          if target ≠ activeObject then
            let objects := c._objects
            let isActiveLower := decide (indexOf objects activeObject < indexOf objects target)
            let gc := newGroup M c
              (if isActiveLower then [target, activeObject] else [activeObject, target])
            let c := setActiveGroup gc.2 (some gc.1)
            (c, getActiveGroup c)
          else (c, none)
        | none => (c, none)
      -- activate target object in any case
      let c := setActive r.1 target true
      match r.2 with
      | some activeGroup => saveCoords c activeGroup
      | none => c

/-- The normalised corners `selectionX1Y1`, `selectionX2Y2` of the drag
rectangle. -/
def selectionCorners (c : Canvas) : Point × Point :=
  let x1 := c._groupSelector.ex
  let y1 := c._groupSelector.ey
  let x2 := x1 + c._groupSelector.left
  let y2 := y1 + c._groupSelector.top
  ({ x := min x1 x2, y := min y1 y2 }, { x := max x1 x2, y := max y1 y2 })

/-- The geometric test of `_findSelectedObjects` on one object. -/
def selectionTest (M : ObjectModel) (o : FObject) (p1 p2 : Point) : Bool :=
  M.intersectsWithRect o p1 p2 || M.isContainedWithinRect o p1 p2 ||
    M.containsPoint o p1 || M.containsPoint o p2

/-- The loop of `_findSelectedObjects` over `this._objects`: activates and
collects the matching objects into `group`. The entries of `_objects` are
object references, so the guard `if (!currentObject) continue` never fires. -/
def collectSelected (M : ObjectModel) (p1 p2 : Point) :
    Canvas → List Ref → List Ref → Canvas × List Ref
  | c, group, [] => (c, group)
  | c, group, currentObject :: rest =>
    if selectionTest M (c.shape currentObject) p1 p2 then
      if c.selection && (c.shape currentObject).selectable then
        collectSelected M p1 p2 (setActive c currentObject true) (group ++ [currentObject]) rest
      else collectSelected M p1 p2 c group rest
    else collectSelected M p1 p2 c group rest

/-- `_findSelectedObjects(e)`; the event `e` is only passed on to
`setActiveObject`. -/
def _findSelectedObjects (M : ObjectModel) (c : Canvas) : Canvas :=
  let corners := selectionCorners c
  let r := collectSelected M corners.1 corners.2 c [] c._objects
  match r.2 with
  | [] => r.1
  -- do not create group for 1 element only
  | [object] => setActiveObject r.1 object none
  | group =>
    let gc := newGroup M r.1 group
    let c := setActiveGroup gc.2 (some gc.1)
    saveCoords c gc.1

/-! ## Transparency test -/

/-- The loop of `isTargetTransparent` over `imageData.data`, four bytes a
pixel: `for (i = 3; i < l; i += 4) { isTransparent = data[i] <= 0; if
(isTransparent === false) break; }`. The list is the data from index i - 3
on; the flag is the current value of `isTransparent`. -/
def scanAlpha : List Nat → Bool → Bool
  | _ :: _ :: _ :: temp :: rest, _ =>
    if temp ≤ 0 then scanAlpha rest true else false
  | _, isTransparent => isTransparent

/-- The pixel window `imageData.data` that `isTargetTransparent(target, x, y)`
reads back: the target is drawn with `hasBorders` and `transparentCorners`
off, the start coordinates are moved by the tolerance (not below 0) and the
window is `(targetFindTolerance * 2) || 1` pixels wide and high.
`draw target x y w h` stands for the bytes
`cacheContext.getImageData(x, y, w, h).data` read back after
`this._draw(cacheContext, target)`. -/
def transparencyWindow (draw : FObject → ℚ → ℚ → ℚ → ℚ → List Nat)
    (targetFindTolerance : ℚ) (target : FObject) (x y : ℚ) : List Nat :=
  let target := { target with hasBorders := false, transparentCorners := false }
  -- If tolerance is > 0 adjust start coords to take into account
  let x := if targetFindTolerance > 0 then
      (if x > targetFindTolerance then x - targetFindTolerance else 0) else x
  let y := if targetFindTolerance > 0 then
      (if y > targetFindTolerance then y - targetFindTolerance else 0) else y
  let size := if targetFindTolerance * 2 = 0 then 1 else targetFindTolerance * 2
  draw target x y size size

/-- `isTargetTransparent(target, x, y)`: the value returned and the target
after the call, with its `hasBorders` and `transparentCorners` written back
from the saved values. Clearing the cache context afterwards leaves no trace
in the model. -/
def isTargetTransparent (draw : FObject → ℚ → ℚ → ℚ → ℚ → List Nat)
    (targetFindTolerance : ℚ) (target : FObject) (x y : ℚ) : Bool × FObject :=
  let hasBorders := target.hasBorders
  let transparentCorners := target.transparentCorners
  let imageData := transparencyWindow draw targetFindTolerance target x y
  let target := { target with hasBorders := false, transparentCorners := false }
  let target :=
    { target with hasBorders := hasBorders, transparentCorners := transparentCorners }
  (scanAlpha imageData true, target)

/-! ## Layers -/

/-- A DOM canvas element, by reference. -/
abbrev Element := Nat

/-- The layer tables of a canvas and the DOM state `createLayer` touches. -/
structure LayerStore where
  /-- The own properties of the object `this.layers`. -/
  layers : String → Option Element
  /-- The own properties of the object `this.contexts`: 2d contexts. -/
  contexts : String → Option Nat
  lowerCanvasEl : Element
  /-- The children appended to `this.wrapperEl`, oldest first. -/
  wrapperChildren : List Element
  /-- The element the next `_createCanvasElement()` returns. -/
  nextElement : Element

/-- The property names every plain JavaScript object inherits from
`Object.prototype`. -/
def objectPrototypeNames : List String :=
  ["constructor", "hasOwnProperty", "isPrototypeOf", "propertyIsEnumerable", "toLocaleString",
   "toString", "valueOf", "__proto__", "__defineGetter__", "__defineSetter__",
   "__lookupGetter__", "__lookupSetter__"]

/-- The JavaScript operator `name in object` for a plain object (`{ }`) with
the own properties `own`: true for an own property and for a property
inherited from `Object.prototype`. -/
def hasProperty {α : Type} (own : String → Option α) (name : String) : Bool :=
  (own name).isSome || objectPrototypeNames.contains name

/-- `createLayer(name, primary)`: the error thrown, or the store after the
call. `getContext el` stands for `el.getContext('2d')`; classes and styles of
the new element are not part of the model. -/
def createLayer (getContext : Element → Nat) (s : LayerStore) (name : String)
    (primary : Bool) : Except String LayerStore :=
  if hasProperty s.layers name then
    Except.error "Layer already exists"
  else
    let r : Element × LayerStore :=
      if primary then (s.lowerCanvasEl, s)
      else
        (s.nextElement,
          { s with
            nextElement := s.nextElement + 1
            wrapperChildren := s.wrapperChildren ++ [s.nextElement] })
    let newLayer := r.1
    let s := r.2
    Except.ok
      { s with
        layers := Function.update s.layers name (some newLayer)
        contexts := Function.update s.contexts name (some (getContext newLayer)) }

/-! ## Geometry of an unrotated shape -/

/-- Modelled from the spec: half of the target's stroke-inclusive scaled
width, the horizontal distance from its centre to its left or right edge
(`fabric.Object` is not part of `canvas.class.js`). -/
def halfWidth (o : FObject) : ℚ := (o.width * o.scaleX + o.strokeWidth * o.scaleX) / 2

/-- Modelled from the spec: half of the target's stroke-inclusive scaled
height (`fabric.Object` is not part of `canvas.class.js`). -/
def halfHeight (o : FObject) : ℚ := (o.height * o.scaleY + o.strokeWidth * o.scaleY) / 2

/-- Modelled from the spec: `object.translateToCenterPoint(point, originX,
originY)` for an unrotated shape: the centre of the shape whose anchor
`(originX, originY)` lies at `point`. -/
def translateToCenterPoint (o : FObject) (p : Point) (ox : OriginX) (oy : OriginY) : Point :=
  { x := match ox with
      | OriginX.left => p.x + halfWidth o
      | OriginX.right => p.x - halfWidth o
      | OriginX.center => p.x
    y := match oy with
      | OriginY.top => p.y + halfHeight o
      | OriginY.bottom => p.y - halfHeight o
      | OriginY.center => p.y }

/-- Modelled from the spec: `object.translateToOriginPoint(center, originX,
originY)` for an unrotated shape: the surface position of the anchor
`(originX, originY)` of the shape centred at `center`. -/
def translateToOriginPoint (o : FObject) (ctr : Point) (ox : OriginX) (oy : OriginY) : Point :=
  { x := match ox with
      | OriginX.left => ctr.x - halfWidth o
      | OriginX.right => ctr.x + halfWidth o
      | OriginX.center => ctr.x
    y := match oy with
      | OriginY.top => ctr.y - halfHeight o
      | OriginY.bottom => ctr.y + halfHeight o
      | OriginY.center => ctr.y }

/-- Modelled from the spec: `object.getCenterPoint()`: the centre of the shape
whose own anchor `(originX, originY)` lies at `(left, top)`. -/
def getCenterPoint (o : FObject) : Point :=
  translateToCenterPoint o { x := o.left, y := o.top } o.originX o.originY

/-- Modelled from the spec: `object.toLocalPoint(point, originX, originY)` for
an unrotated shape: the surface point expressed relative to the anchor
`(originX, originY)` of the shape. -/
def toLocalPoint (o : FObject) (p : Point) (ox : OriginX) (oy : OriginY) : Point :=
  let a := translateToOriginPoint o (getCenterPoint o) ox oy
  { x := p.x - a.x, y := p.y - a.y }

/-- Modelled from the spec: the `(left, top)` that
`object.setPositionByOrigin(pos, originX, originY)` writes for an unrotated
shape, so that the anchor `(originX, originY)` comes to lie at `pos`. -/
def setPositionByOrigin (o : FObject) (pos : Point) (ox : OriginX) (oy : OriginY) : Point :=
  translateToOriginPoint o (translateToCenterPoint o pos ox oy) o.originX o.originY

/-- The surface position of the top-left corner of an unrotated shape. -/
def topLeftCorner (o : FObject) : Point :=
  translateToOriginPoint o (getCenterPoint o) OriginX.left OriginY.top

/-! ## The concrete scale scenario -/

/-- Shape A of the scenario: left = 0, top = 0, width = 100, height = 50,
scale 1, angle 0, no padding, no stroke, anchored at its top-left corner. -/
def shapeA : FObject :=
  { isGroup := false, left := 0, top := 0, width := 100, height := 50
    scaleX := 1, scaleY := 1, angle := 0, padding := 0, strokeWidth := 0
    originX := OriginX.left, originY := OriginY.top
    lockMovementX := false, lockMovementY := false
    lockScalingX := false, lockScalingY := false, lockUniScaling := false
    lockRotation := false, centerTransform := false, selectable := true
    visible := true, hasBorders := true, transparentCorners := true }

/-- An object model with the unrotated geometry above, in which the pointer
hits the handle `corner` of every object and the cache canvas is blank; its
angle functions are rational stand-ins. -/
def plainModel (corner : Option Corner) : ObjectModel :=
  { containsPoint := fun _ _ => false
    _findTargetCorner := fun _ _ _ => corner
    intersectsWithRect := fun _ _ _ => false
    isContainedWithinRect := fun _ _ _ => false
    getCenterPoint := getCenterPoint
    translateToOriginPoint := translateToOriginPoint
    toLocalPoint := toLocalPoint
    setPositionByOrigin := setPositionByOrigin
    getObjectBySerial := fun _ _ _ _ => none
    getImageData := fun _ _ _ _ _ => 0
    degreesToRadians := fun _ => 0
    radiansToDegrees := fun r => r
    atan2 := fun y x => y + 2 * x
    groupShape := fun _ _ => { shapeA with isGroup := true } }

/-- A canvas with zero offset, no objects and nothing selected. -/
def emptyCanvas : Canvas :=
  { shape := fun _ => shapeA
    active := fun _ => false
    members := fun _ => []
    _objects := []
    _activeObject := none
    _activeOffset := none
    _activeGroup := none
    _groupSelector := { ex := 0, ey := 0, left := 0, top := 0 }
    _offset := { left := 0, top := 0 }
    selection := true
    centerTransform := false
    controlsAboveOverlay := false
    lastRenderedObjectWithControlsAboveOverlay := none
    nextRef := 0 }

/-- The drag-start event of the scenario: pointer (110, 55), no modifier. -/
def grabEvent : Event := { x := 110, y := 55, altKey := false, shiftKey := false }

/-- The scenario: begin on the 'br' handle of shape A, then
`_scaleObject(210, 105, 'equally')`. -/
def scenario : Option Transform :=
  (_setupCurrentTransform (plainModel (some Corner.br)) emptyCanvas grabEvent
      (some shapeA) none).map
    fun t => _scaleObject (plainModel (some Corner.br)) emptyCanvas t 210 105 ScaleBy.equally

/-- An object model over `plainModel` whose cache canvas is blank except
that the pixel at byte offset `x` carries the serial colour of object `o`:
its red byte is 1 there, and `getObjectBySerial` decodes red 1 to `o`. -/
def pixelModel (x : Nat) (o : Ref) : ObjectModel :=
  { plainModel none with
    getObjectBySerial := fun r _ _ _ => if r = 1 then some o else none
    getImageData := fun _ _ _ _ i => if i = x then 1 else 0 }

/-- The marquee matches as the specification describes them: the entries of
the canvas object list, in list order, that pass the geometric test against
the normalised drag rectangle and are selectable. -/
def marqueeMatches (M : ObjectModel) (c : Canvas) : List Ref :=
  c._objects.filter fun o =>
    selectionTest M (c.shape o) (selectionCorners c).1 (selectionCorners c).2 &&
      (c.shape o).selectable

/-- The selection slots are not both set. -/
def exclusive (c : Canvas) : Prop := c._activeObject = none ∨ c._activeGroup = none

/-- An object model whose marquee test passes exactly for the objects whose
`left` is positive. -/
def marqueeModel : ObjectModel :=
  { plainModel none with intersectsWithRect := fun o _ _ => decide (0 < o.left) }

/-- A canvas with the object list [1, 2, 3] and nothing selected, in which
objects 1 and 3 have left = 5 and every other object has left = 0. -/
def threeShapes : Canvas :=
  { emptyCanvas with
    shape := fun r => if r = 1 ∨ r = 3 then { shapeA with left := 5 } else shapeA
    _objects := [1, 2, 3]
    nextRef := 10 }

/-- A canvas with the object list [1, 2, 3] in which only object 2 has a
positive `left`. -/
def oneShape : Canvas :=
  { emptyCanvas with
    shape := fun r => if r = 2 then { shapeA with left := 5 } else shapeA
    _objects := [1, 2, 3]
    nextRef := 10 }

/-- A canvas with the object list [1, 2, 3] whose active group 10 has the
members 1 and 2. -/
def groupOfTwo : Canvas :=
  { emptyCanvas with
    shape := fun r => if r = 10 then { shapeA with isGroup := true } else shapeA
    active := fun r => decide (r = 1 ∨ r = 2 ∨ r = 10)
    members := fun r => if r = 10 then [1, 2] else []
    _objects := [1, 2, 3]
    _activeGroup := some 10
    nextRef := 11 }

/-- A canvas with the object list [1, 2] whose active object is 1 (the lower
one) and without an active group. -/
def oneActive : Canvas :=
  { emptyCanvas with
    active := fun r => decide (r = 1)
    _objects := [1, 2]
    _activeObject := some 1
    nextRef := 10 }

/-- A shift-click event at (10, 10). -/
def shiftClick : Event := { x := 10, y := 10, altKey := false, shiftKey := true }

/-- An event at (10, 10) with the alt key held. -/
def altEvent : Event := { x := 10, y := 10, altKey := true, shiftKey := false }

/-- A finite sequence of `_scaleObject(x, y, by)` calls applied in order. -/
def scaleAll (M : ObjectModel) (c : Canvas) (t : Transform) (calls : List (ℚ × ℚ × ScaleBy)) :
    Transform :=
  calls.foldl (fun t p => _scaleObject M c t p.1 p.2.1 p.2.2) t

/-- A finite sequence of `_translateObject(x, y)` calls applied in order. -/
def translateAll (t : Transform) (calls : List (ℚ × ℚ)) : Transform :=
  calls.foldl (fun t p => _translateObject t p.1 p.2) t

/-- A finite sequence of `_rotateObject(x, y)` calls applied in order. -/
def rotateAll (M : ObjectModel) (c : Canvas) (t : Transform) (calls : List (ℚ × ℚ)) :
    Transform :=
  calls.foldl (fun t p => _rotateObject M c t p.1 p.2) t

/-- Shape A with its horizontal movement locked. -/
def lockedMoveShape : FObject := { shapeA with lockMovementX := true }

/-- The handle-to-action map as the specification lists it: left/right-middle
handle gives 'scaleX', top/bottom-middle 'scaleY', the rotation handle
'rotate', the four corners 'scale', and no handle 'drag'. -/
def actionOfHandle : Option Corner → Action
  | some Corner.ml => Action.scaleX
  | some Corner.mr => Action.scaleX
  | some Corner.mt => Action.scaleY
  | some Corner.mb => Action.scaleY
  | some Corner.mtr => Action.rotate
  | some Corner.tl => Action.scale
  | some Corner.tr => Action.scale
  | some Corner.bl => Action.scale
  | some Corner.br => Action.scale
  | none => Action.drag

/-- The anchor opposite each handle as the specification lists it. -/
def anchorOfHandle : Option Corner → OriginX × OriginY
  | some Corner.tl => (OriginX.right, OriginY.bottom)
  | some Corner.tr => (OriginX.left, OriginY.bottom)
  | some Corner.bl => (OriginX.right, OriginY.top)
  | some Corner.br => (OriginX.left, OriginY.top)
  | some Corner.ml => (OriginX.right, OriginY.center)
  | some Corner.mr => (OriginX.left, OriginY.center)
  | some Corner.mt => (OriginX.center, OriginY.bottom)
  | some Corner.mb => (OriginX.center, OriginY.top)
  | some Corner.mtr => (OriginX.center, OriginY.center)
  | none => (OriginX.center, OriginY.center)

/-- The anchor swap of the flip check: 'left' and 'right' are exchanged,
'center' is kept. -/
def swapOriginX : OriginX → OriginX
  | OriginX.left => OriginX.right
  | OriginX.right => OriginX.left
  | OriginX.center => OriginX.center

/-- The anchor swap of the flip check: 'top' and 'bottom' are exchanged,
'center' is kept. -/
def swapOriginY : OriginY → OriginY
  | OriginY.top => OriginY.bottom
  | OriginY.bottom => OriginY.top
  | OriginY.center => OriginY.center

/-- Shape A mirrored horizontally: scaleX = -1. -/
def mirroredShape : FObject := { shapeA with scaleX := -1 }

/-- Shape A with its horizontal scaling locked. -/
def lockedScaleShape : FObject := { shapeA with lockScalingX := true }

/-- The session begun on the handle `corner` of `target` with event `e`, on
the empty canvas with the unrotated geometry. -/
def beginOn (corner : Option Corner) (e : Event) (target : FObject) : Option Transform :=
  _setupCurrentTransform (plainModel corner) emptyCanvas e (some target) none

/-- The row of the pixel at byte offset `x` in the 7x7 RGBA window. -/
def pixelRow (x : Nat) : Nat := x / 4 / 7

/-- The column of the pixel at byte offset `x` in the 7x7 RGBA window. -/
def pixelCol (x : Nat) : Nat := x / 4 % 7

/-- The distance of a row or column index from the centre index 3. -/
def fromCentre (n : Nat) : Nat := if n ≤ 3 then 3 - n else n - 3

/-- The ring of the pixel at byte offset `x`: max(|row - 3|, |col - 3|). -/
def ringDistance (x : Nat) : Nat := max (fromCentre (pixelRow x)) (fromCentre (pixelCol x))

/-- The square of the straight-line distance of the pixel at byte offset `x`
to the centre pixel. -/
def squaredDistance (x : Nat) : Nat :=
  fromCentre (pixelRow x) ^ 2 + fromCentre (pixelCol x) ^ 2

/-- An object model over `plainModel` in which every object contains every
point and no handle is hit. -/
def insideModel : ObjectModel :=
  { plainModel none with containsPoint := fun _ _ => true }

/-- A canvas with `controlsAboveOverlay` set whose last object drawn with
handles is the visible object 1. -/
def lastDrawn : Canvas :=
  { emptyCanvas with
    _objects := [1]
    controlsAboveOverlay := true
    lastRenderedObjectWithControlsAboveOverlay := some 1
    nextRef := 10 }

/-- An object model over `plainModel` whose cache window is blank except for
two pixels: the one at byte offset 128 (row 4, column 4) carries the colour
of object 1 and the one at byte offset 124 (row 4, column 3) the colour of
object 2; `getObjectBySerial` decodes the red byte 1 to object 1 and 2 to
object 2. -/
def twoPixelModel : ObjectModel :=
  { plainModel none with
    getObjectBySerial := fun r _ _ _ => if r = 1 then some 1 else if r = 2 then some 2 else none
    getImageData := fun _ _ _ _ i => if i = 128 then 1 else if i = 124 then 2 else 0 }

/-- The layer store of a canvas just constructed: no layers, no contexts. -/
def freshLayers : LayerStore :=
  { layers := fun _ => none
    contexts := fun _ => none
    lowerCanvasEl := 0
    wrapperChildren := [0]
    nextElement := 1 }

/-- A cache read-back of two pixels, the second with alpha 9, whatever is
drawn. -/
def opaqueDraw : FObject → ℚ → ℚ → ℚ → ℚ → List Nat :=
  fun _ _ _ _ _ => [0, 0, 0, 0, 1, 2, 3, 9]

/-! ## Non-finite factors of the 'equally' branch -/

/-- A JavaScript number as far as the special values go: a finite number
(taken exactly, rounding is not modelled), an infinity (its sign follows the
signs of the operands and of a zero divisor, and is not modelled) or NaN. -/
inductive JSNumber where
  | finite (q : ℚ)
  | infinity
  | nan
  deriving DecidableEq

/-- JavaScript `a / b` on finite numbers: a zero divisor gives NaN for a zero
dividend and an infinity for any other. -/
def jsDivide (a b : ℚ) : JSNumber :=
  if b = 0 then (if a = 0 then JSNumber.nan else JSNumber.infinity)
  else JSNumber.finite (a / b)

/-- JavaScript `v * r` for a finite `r`: NaN stays NaN and an infinity times
zero is NaN. -/
def jsMultiply (v : JSNumber) (r : ℚ) : JSNumber :=
  match v with
  | JSNumber.finite q => JSNumber.finite (q * r)
  | JSNumber.infinity => if r = 0 then JSNumber.nan else JSNumber.infinity
  | JSNumber.nan => JSNumber.nan

/-- Whether `a === b` can hold: two finite numbers are equal when they are
the same number, two infinities when their signs agree (taken as possible
here), and NaN is equal to nothing, itself included. -/
def canStrictEqual (a b : JSNumber) : Bool :=
  match a, b with
  | JSNumber.finite p, JSNumber.finite q => decide (p = q)
  | JSNumber.infinity, JSNumber.infinity => true
  | _, _ => false

/-- The factors (newScaleX, newScaleY) of the by = 'equally' branch of
`_scaleObject` as JavaScript numbers, from the padding-adjusted local offsets
`localX`, `localY`. -/
def equallyFactors (target : FObject) (original : Original) (localX localY : ℚ) :
    JSNumber × JSNumber :=
  let dist := localY + localX
  let lastDist := (target.height + target.strokeWidth) * original.scaleY +
    (target.width + target.strokeWidth) * original.scaleX
  (jsDivide (original.scaleX * dist) lastDist, jsDivide (original.scaleY * dist) lastDist)

/-- Shape A shrunk to a point: width = 0 and height = 0 (strokeWidth = 0). -/
def pointShape : FObject := { shapeA with width := 0, height := 0 }

/-! ## Theorems -/

/-! ### Hit-testing lemmas -/

theorem scanPattern_some (M : ObjectModel) (d : Nat → Nat) (t : Ref) (l : List Nat) :
    scanPattern M d (some t) l = some t := by
  cases l <;> rfl

theorem scanPattern_none_iff (M : ObjectModel) (d : Nat → Nat) (l : List Nat) :
    scanPattern M d none l = none ↔ ∀ x ∈ l, pixelObject M d x = none := by
  induction l with
  | nil => simp [scanPattern]
  | cons x rest ih =>
    cases hx : pixelObject M d x with
    | none => simp [scanPattern, hx, ih]
    | some t => simp [scanPattern, hx, scanPattern_some]

theorem findTargetPattern_covers :
    ∀ k, k < 49 → 4 * k ∈ findTargetPattern := by
  decide

theorem findTargetPattern_within :
    ∀ x ∈ findTargetPattern, ∃ k, k < 49 ∧ x = 4 * k := by
  intro x hx
  refine ⟨x / 4, ?_, ?_⟩ <;> revert x <;> decide

/-! ### C1 -/

/-- C1 (as stated, refuted): in the scenario (shape A of 100 x 50 at (0,0),
grabbed at (110,55) on 'br', then `_scaleObject(210, 105, 'equally')`) the
target does not end with scaleX = 2 and scaleY = 2. -/
theorem scenario_scale_ne_two :
    ¬ ∃ t, scenario = some t ∧ t.target.scaleX = 2 ∧ t.target.scaleY = 2 := by
  rintro ⟨t, ht, hx, -⟩
  have h : scenario = some t := ht
  simp only [scenario, _setupCurrentTransform, Option.map_some', Option.some.injEq] at h
  subst h
  revert hx
  simp [_scaleObject, applyScale, checkFlipped, _resetCurrentTransform, plainModel, emptyCanvas, shapeA, grabEvent,
    adjustLocal, adjustPadding, toLocalPoint, translateToOriginPoint, getCenterPoint,
    translateToCenterPoint, halfWidth, halfHeight, getPointer]
  norm_num

/-- C1 (amended): in the scenario the session is anchored at ('left', 'top')
with action 'scale', and `_scaleObject(210, 105, 'equally')` leaves the
target with scaleX = scaleY = 21/10 (the ratio (210 + 105) / (100 + 50) of
the live pointer offset to the size) and its top-left corner at (0,0). -/
theorem scenario_scale_from_live_pointer :
    ∃ t0 t, _setupCurrentTransform (plainModel (some Corner.br)) emptyCanvas grabEvent
        (some shapeA) none = some t0 ∧
      t0.action = Action.scale ∧ t0.originX = OriginX.left ∧ t0.originY = OriginY.top ∧
      scenario = some t ∧
      t.target.scaleX = 21 / 10 ∧ t.target.scaleY = 21 / 10 ∧
      t.target.left = 0 ∧ t.target.top = 0 ∧
      topLeftCorner t.target = { x := 0, y := 0 } := by
  refine ⟨_, _, rfl, ?_, ?_, ?_, rfl, ?_⟩
  · simp [_resetCurrentTransform, plainModel, emptyCanvas, shapeA, grabEvent]
  · simp [_resetCurrentTransform, plainModel, emptyCanvas, shapeA, grabEvent]
  · simp [_resetCurrentTransform, plainModel, emptyCanvas, shapeA, grabEvent]
  · simp [_scaleObject, applyScale, checkFlipped, _resetCurrentTransform, plainModel, emptyCanvas, shapeA, grabEvent,
      adjustLocal, adjustPadding, toLocalPoint, translateToOriginPoint, getCenterPoint,
      translateToCenterPoint, halfWidth, halfHeight, getPointer, topLeftCorner,
      setPositionByOrigin]
    norm_num

/-! ### C2 -/

/-- C2: when neither guard of `findTarget` returns (no controls-above-overlay
fast path, no active group hit) and the centre pixel of the 7x7 window (byte
offset 96) decodes to the shape `S`, `findTarget` returns `S`, whatever the
other pixels hold. -/
theorem findTarget_centre_pixel (M : ObjectModel) (c : Canvas) (pointer : Point)
    (skipGroup : Bool) (S : Ref)
    (hfast : controlsAboveOverlayTarget M c pointer = none)
    (hgroup : activeGroupTarget M c pointer skipGroup = none)
    (hS : pixelObject M (cacheWindow M pointer) 96 = some S) :
    findTarget M c pointer skipGroup = some S := by
  simp [findTarget, hfast, hgroup, findTargetPattern, scanPattern, hS, scanPattern_some]

/-- Witness for C2: a blank cache except for the centre pixel, which carries
the colour of object 7. -/
theorem findTarget_centre_pixel_witness :
    controlsAboveOverlayTarget (pixelModel 96 7) emptyCanvas { x := 10, y := 10 } = none ∧
    activeGroupTarget (pixelModel 96 7) emptyCanvas { x := 10, y := 10 } false = none ∧
    pixelObject (pixelModel 96 7) (cacheWindow (pixelModel 96 7) { x := 10, y := 10 }) 96
      = some 7 ∧
    findTarget (pixelModel 96 7) emptyCanvas { x := 10, y := 10 } false = some 7 :=
  ⟨by simp [controlsAboveOverlayTarget, emptyCanvas],
   by simp [activeGroupTarget, emptyCanvas],
   by simp [pixelObject, cacheWindow, pixelModel],
   findTarget_centre_pixel (pixelModel 96 7) emptyCanvas { x := 10, y := 10 } false 7
    (by simp [controlsAboveOverlayTarget, emptyCanvas])
    (by simp [activeGroupTarget, emptyCanvas])
    (by simp [pixelObject, cacheWindow, pixelModel])⟩

/-! ### C3 -/

/-- C3: when neither guard of `findTarget` returns, `findTarget` returns null
if and only if none of the 49 pixels of the 7x7 window (byte offsets 4k,
k < 49) decodes to a shape. -/
theorem findTarget_none_iff (M : ObjectModel) (c : Canvas) (pointer : Point)
    (skipGroup : Bool)
    (hfast : controlsAboveOverlayTarget M c pointer = none)
    (hgroup : activeGroupTarget M c pointer skipGroup = none) :
    findTarget M c pointer skipGroup = none ↔
      ∀ k, k < 49 → pixelObject M (cacheWindow M pointer) (4 * k) = none := by
  simp only [findTarget, hfast, hgroup, scanPattern_none_iff]
  constructor
  · intro h k hk
    exact h _ (findTargetPattern_covers k hk)
  · intro h x hx
    obtain ⟨k, hk, rfl⟩ := findTargetPattern_within x hx
    exact h k hk

/-- Witness for C3: a window whose only coloured pixel is the corner pixel at
byte offset 0; both guards fall through and the equivalence holds there
(neither side is true: the window is not empty and a shape is returned). -/
theorem findTarget_none_iff_witness :
    controlsAboveOverlayTarget (pixelModel 0 7) emptyCanvas { x := 10, y := 10 } = none ∧
    activeGroupTarget (pixelModel 0 7) emptyCanvas { x := 10, y := 10 } false = none ∧
    (findTarget (pixelModel 0 7) emptyCanvas { x := 10, y := 10 } false = none ↔
      ∀ k, k < 49 →
        pixelObject (pixelModel 0 7) (cacheWindow (pixelModel 0 7) { x := 10, y := 10 })
          (4 * k) = none) :=
  ⟨by simp [controlsAboveOverlayTarget, emptyCanvas],
   by simp [activeGroupTarget, emptyCanvas],
   findTarget_none_iff (pixelModel 0 7) emptyCanvas { x := 10, y := 10 } false
    (by simp [controlsAboveOverlayTarget, emptyCanvas])
    (by simp [activeGroupTarget, emptyCanvas])⟩

/-! ### C4 -/

/-- C4: `_shouldClearSelection(e, target)` is truthy exactly when the target
is absent, or an active group exists that neither contains the target nor is
the target while shift is not held, or the target is not selectable. In
particular it is falsy for a hit selectable target when there is no active
group or when the shift key is held. -/
theorem shouldClearSelection_iff (c : Canvas) (e : Event) :
    (∀ target : Option Ref,
      _shouldClearSelection c e target = true ↔
        target = none ∨
        (∃ g t, c._activeGroup = some g ∧ target = some t ∧ t ∉ c.members g ∧ g ≠ t ∧
          e.shiftKey = false) ∨
        (∃ t, target = some t ∧ (c.shape t).selectable = false)) ∧
    (∀ t : Ref, (c.shape t).selectable = true →
      (c._activeGroup = none ∨ e.shiftKey = true) →
      _shouldClearSelection c e (some t) = false) := by
  constructor
  · intro target
    cases target with
    | none => simp [_shouldClearSelection]
    | some t =>
      cases hg : c._activeGroup with
      | none => simp [_shouldClearSelection, hg]
      | some g => simp [_shouldClearSelection, hg, groupContains, and_assoc]
  · intro t hsel h
    cases hg : c._activeGroup with
    | none => simp [_shouldClearSelection, hg, hsel]
    | some g =>
      rcases h with h | h
      · simp [hg] at h
      · simp [_shouldClearSelection, hg, hsel, h]

/-! ### Marquee lemmas -/

theorem collectSelected_spec (M : ObjectModel) (p1 p2 : Point) (l : List Ref) :
    ∀ (c : Canvas) (group : List Ref),
      (collectSelected M p1 p2 c group l).2 = group ++ l.filter (fun o =>
          selectionTest M (c.shape o) p1 p2 && (c.selection && (c.shape o).selectable)) ∧
      ∃ act, (collectSelected M p1 p2 c group l).1 = { c with active := act } ∧
        ∀ o, act o = (c.active o || decide (o ∈ l.filter (fun o =>
          selectionTest M (c.shape o) p1 p2 && (c.selection && (c.shape o).selectable)))) := by
  induction l with
  | nil =>
    intro c group
    exact ⟨by simp [collectSelected], c.active, rfl, by simp⟩
  | cons a rest ih =>
    intro c group
    by_cases h1 : selectionTest M (c.shape a) p1 p2 = true
    · by_cases h2 : (c.selection && (c.shape a).selectable) = true
      · obtain ⟨hl, act, hc, hact⟩ := ih (setActive c a true) (group ++ [a])
        refine ⟨?_, act, ?_, ?_⟩
        · simp only [collectSelected, h1, h2, if_true, hl]
          simp [setActive, List.filter_cons, h1, h2]
        · simp only [collectSelected, h1, h2, if_true, hc]
          simp [setActive]
        · intro o
          rw [hact o]
          by_cases ho : o = a
          · subst ho
            simp [setActive, List.filter_cons, h1, h2]
          · simp [setActive, List.filter_cons, h1, h2, Function.update_noteq ho, ho]
      · obtain ⟨hl, act, hc, hact⟩ := ih c group
        refine ⟨?_, act, ?_, ?_⟩
        · simp only [collectSelected, h1, h2, if_true]
          simp [hl, List.filter_cons, h1, h2]
        · simp only [collectSelected, h1, h2, if_true]
          simpa using hc
        · intro o
          rw [hact o]
          simp [List.filter_cons, h1, h2]
    · obtain ⟨hl, act, hc, hact⟩ := ih c group
      refine ⟨?_, act, ?_, ?_⟩
      · simp only [collectSelected, h1]
        simp [hl, List.filter_cons, h1]
      · simp only [collectSelected, h1]
        simpa using hc
      · intro o
        rw [hact o]
        simp [List.filter_cons, h1]

theorem collectSelected_matches (M : ObjectModel) (c : Canvas) (hsel : c.selection = true) :
    (collectSelected M (selectionCorners c).1 (selectionCorners c).2 c [] c._objects).2 =
      marqueeMatches M c ∧
    ∃ act, (collectSelected M (selectionCorners c).1 (selectionCorners c).2 c [] c._objects).1 =
        { c with active := act } ∧
      ∀ o, act o = (c.active o || decide (o ∈ marqueeMatches M c)) := by
  have h := collectSelected_spec M (selectionCorners c).1 (selectionCorners c).2 c._objects c []
  simpa [marqueeMatches, hsel] using h

/-! ### C5 -/

/-- C5: with `canvas.selection` enabled, when at least two entries of the
object list are selectable and pass the geometric test, `_findSelectedObjects`
sets as the active group a new group (type 'group', at the fresh reference)
whose member list is exactly those entries in object-list order: it is a
sublist of the object list, and an object is a member iff it is in the list,
passes the test and is selectable. -/
theorem findSelectedObjects_group (M : ObjectModel) (c : Canvas)
    (hsel : c.selection = true) (h2 : 2 ≤ (marqueeMatches M c).length) :
    (_findSelectedObjects M c)._activeGroup = some c.nextRef ∧
    ((_findSelectedObjects M c).shape c.nextRef).isGroup = true ∧
    (_findSelectedObjects M c).members c.nextRef = marqueeMatches M c ∧
    List.Sublist ((_findSelectedObjects M c).members c.nextRef) c._objects ∧
    ∀ o, o ∈ (_findSelectedObjects M c).members c.nextRef ↔
      o ∈ c._objects ∧
      selectionTest M (c.shape o) (selectionCorners c).1 (selectionCorners c).2 = true ∧
      (c.shape o).selectable = true := by
  obtain ⟨hl, act, hc, -⟩ := collectSelected_matches M c hsel
  have hmem : (_findSelectedObjects M c).members c.nextRef = marqueeMatches M c := by
    unfold _findSelectedObjects
    simp only [hl, hc]
    match hm : marqueeMatches M c, h2 with
    | a :: b :: rest, _ => simp [newGroup, setActiveGroup, saveCoords, setActive]
  refine ⟨?_, ?_, hmem, ?_, ?_⟩
  · unfold _findSelectedObjects
    simp only [hl, hc]
    match hm : marqueeMatches M c, h2 with
    | a :: b :: rest, _ => simp [newGroup, setActiveGroup, saveCoords, setActive]
  · unfold _findSelectedObjects
    simp only [hl, hc]
    match hm : marqueeMatches M c, h2 with
    | a :: b :: rest, _ => simp [newGroup, setActiveGroup, saveCoords, setActive]
  · rw [hmem]
    exact List.filter_sublist _
  · intro o
    rw [hmem]
    simp [marqueeMatches, List.mem_filter]

/-- Witness for C5: of the objects [1, 2, 3], the objects 1 and 3 pass the
test; the new active group 10 has the member list [1, 3]. -/
theorem findSelectedObjects_group_witness :
    threeShapes.selection = true ∧ 2 ≤ (marqueeMatches marqueeModel threeShapes).length ∧
    (_findSelectedObjects marqueeModel threeShapes)._activeGroup = some 10 ∧
    (_findSelectedObjects marqueeModel threeShapes).members 10 = [1, 3] := by
  have hm : marqueeMatches marqueeModel threeShapes = [1, 3] := by
    simp [marqueeMatches, threeShapes, emptyCanvas, selectionTest, marqueeModel, plainModel,
      shapeA, List.filter_cons]
  have h := findSelectedObjects_group marqueeModel threeShapes rfl (by simp [hm])
  refine ⟨rfl, by simp [hm], h.1, ?_⟩
  rw [← hm]
  exact h.2.2.1

/-! ### C6 -/

/-- C6: with `canvas.selection` enabled, when exactly one entry `o` of the
object list is selectable and passes the geometric test,
`_findSelectedObjects` makes `o` the active object with its active flag set,
and creates no group: the active-group slot, the member lists and the next
fresh reference are as before. -/
theorem findSelectedObjects_single (M : ObjectModel) (c : Canvas) (o : Ref)
    (hsel : c.selection = true) (h1 : marqueeMatches M c = [o]) :
    getActiveObject (_findSelectedObjects M c) = some o ∧
    (_findSelectedObjects M c).active o = true ∧
    getActiveGroup (_findSelectedObjects M c) = getActiveGroup c ∧
    (_findSelectedObjects M c).members = c.members ∧
    (_findSelectedObjects M c).nextRef = c.nextRef := by
  obtain ⟨hl, act, hc, -⟩ := collectSelected_matches M c hsel
  unfold _findSelectedObjects
  simp only [hl, hc, h1]
  cases ha : c._activeObject <;>
    simp [setActiveObject, setActive, getActiveObject, getActiveGroup, ha]

/-- Witness for C6: of the objects [1, 2, 3] only object 2 passes the test;
it becomes the active object and the active-group slot stays null. -/
theorem findSelectedObjects_single_witness :
    oneShape.selection = true ∧ marqueeMatches marqueeModel oneShape = [2] ∧
    getActiveObject (_findSelectedObjects marqueeModel oneShape) = some 2 ∧
    (_findSelectedObjects marqueeModel oneShape).active 2 = true ∧
    getActiveGroup (_findSelectedObjects marqueeModel oneShape) = none := by
  have hm : marqueeMatches marqueeModel oneShape = [2] := by
    simp [marqueeMatches, oneShape, emptyCanvas, selectionTest, marqueeModel, plainModel,
      shapeA, List.filter_cons]
  have h := findSelectedObjects_single marqueeModel oneShape 2 rfl hm
  exact ⟨rfl, hm, h.1, h.2.1, h.2.2.1⟩

/-! ### C7 -/

/-- C7: when the active group `g` has at least two members, after
`_handleGroupLogic(e, target)` the active-group slot is null or still holds
`g` with at least two members; and when `g` has exactly two members and the
(resolved) target is one of them, the slot is null afterwards. -/
theorem handleGroupLogic_group_size (M : ObjectModel) (c : Canvas) (e : Event)
    (target g : Ref) (hg : getActiveGroup c = some g) (h2 : 2 ≤ (c.members g).length) :
    (getActiveGroup (_handleGroupLogic M c e target) = none ∨
      (getActiveGroup (_handleGroupLogic M c e target) = some g ∧
        2 ≤ ((_handleGroupLogic M c e target).members g).length)) ∧
    (∀ t, resolveGroupTarget M c e target = some t → t ∈ c.members g →
      (c.members g).length = 2 →
      getActiveGroup (_handleGroupLogic M c e target) = none) := by
  have hg2 : c._activeGroup = some g := hg
  constructor
  · unfold _handleGroupLogic
    cases hr : resolveGroupTarget M c e target with
    | none => exact Or.inr ⟨hg, h2⟩
    | some t =>
      simp only [hg]
      by_cases hc : groupContains c g t = true
      · have hmem : t ∈ c.members g := by simpa [groupContains] using hc
        have hlen : ((c.members g).erase t).length = (c.members g).length - 1 :=
          List.length_erase_of_mem hmem
        by_cases h1 : (c.members g).length - 1 = 1
        · left
          simp [hc, groupSize, removeWithUpdate, _resetObjectTransform, setActive, hlen, h1,
            discardActiveGroup, setActiveGroup, getActiveGroup, saveCoords, groupDestroy]
        · right
          simp [hc, groupSize, removeWithUpdate, _resetObjectTransform, setActive, hlen, h1,
            getActiveGroup, saveCoords, hg2]
          omega
      · right
        simp [hc, addWithUpdate, _resetObjectTransform, setActive, getActiveGroup, saveCoords,
          hg2]
        omega
  · intro t hr hmem hlen2
    have hc : groupContains c g t = true := by simpa [groupContains] using hmem
    have hlen : ((c.members g).erase t).length = 1 := by
      rw [List.length_erase_of_mem hmem, hlen2]
    unfold _handleGroupLogic
    simp only [hr, hg]
    simp [hc, groupSize, removeWithUpdate, _resetObjectTransform, setActive, hlen,
      discardActiveGroup, setActiveGroup, getActiveGroup, saveCoords, groupDestroy]

/-- Witness for C7: shift-clicking member 2 of the active group [1, 2]
removes it and leaves no active group. -/
theorem handleGroupLogic_group_size_witness :
    getActiveGroup groupOfTwo = some 10 ∧ 2 ≤ (groupOfTwo.members 10).length ∧
    getActiveGroup (_handleGroupLogic (plainModel none) groupOfTwo shiftClick 2) = none := by
  have h := handleGroupLogic_group_size (plainModel none) groupOfTwo shiftClick 2 10 rfl
    (by simp [groupOfTwo])
  refine ⟨rfl, by simp [groupOfTwo], ?_⟩
  exact h.2 2 (by simp [resolveGroupTarget, getActiveGroup, groupOfTwo, emptyCanvas])
    (by simp [groupOfTwo]) (by simp [groupOfTwo])

/-! ### C8 -/

theorem collectSelected_slots (M : ObjectModel) (c : Canvas) (p1 p2 : Point) :
    (collectSelected M p1 p2 c [] c._objects).1._activeObject = c._activeObject ∧
    (collectSelected M p1 p2 c [] c._objects).1._activeGroup = c._activeGroup := by
  obtain ⟨-, act, hc, -⟩ := collectSelected_spec M p1 p2 c._objects c []
  rw [hc]
  exact ⟨rfl, rfl⟩

theorem setActive_activeObject (c : Canvas) (o : Ref) (v : Bool) :
    (setActive c o v)._activeObject = c._activeObject := rfl

theorem setActiveGroup_activeObject (c : Canvas) (g : Option Ref) :
    (setActiveGroup c g)._activeObject = c._activeObject := by
  cases g <;> rfl

theorem discardActiveGroup_activeObject (c : Canvas) :
    (discardActiveGroup c)._activeObject = c._activeObject := by
  unfold discardActiveGroup
  cases getActiveGroup c <;> simp [setActiveGroup_activeObject, groupDestroy]

theorem handleGroupLogic_activeObject (M : ObjectModel) (c : Canvas) (e : Event)
    (target : Ref) : (_handleGroupLogic M c e target)._activeObject = c._activeObject := by
  unfold _handleGroupLogic
  split
  · rfl
  · split
    · simp only [saveCoords, setActive_activeObject]
      split_ifs <;>
        first
          | rfl
          | (simp only [discardActiveGroup_activeObject, setActive_activeObject]; rfl)
    · simp only []
      split <;> split <;> (try split_ifs) <;>
        simp_all [setActive, saveCoords, setActiveGroup, newGroup, getActiveGroup]

/-- C8 (the code at the failing inputs): the canvas `oneActive` (active object
1, no active group) and the canvas `groupOfTwo` (active group 10 of objects 1
and 2, no active object) have at most one slot set, yet shift-clicking object
2 through `_handleGroupLogic`, `setActiveGroup(5)` and `setActiveObject(3)`
each end with both `_activeObject` and `_activeGroup` non-null, although
`setActiveObject` is documented to set "the only active object on canvas". -/
theorem exclusive_not_preserved :
    exclusive oneActive ∧
    ¬ exclusive (_handleGroupLogic (plainModel none) oneActive shiftClick 2) ∧
    ¬ exclusive (setActiveGroup oneActive (some 5)) ∧
    exclusive groupOfTwo ∧
    ¬ exclusive (setActiveObject groupOfTwo 3 none) := by
  refine ⟨Or.inr rfl, ?_, ?_, Or.inl rfl, ?_⟩
  · simp [exclusive, _handleGroupLogic, resolveGroupTarget, getActiveGroup, oneActive,
      emptyCanvas, newGroup, setActiveGroup, setActive, saveCoords]
  · simp [exclusive, setActiveGroup, setActive, oneActive, emptyCanvas]
  · simp [exclusive, setActiveObject, setActive, groupOfTwo, emptyCanvas]

/-- Where the code does keep the two slots exclusive: from a state whose slots
are not both set, `discardActiveObject`, `discardActiveGroup` and
`deactivateAll` reach such a state; `setActiveObject` does when the
active-group slot is null; `setActiveGroup` does when the active-object slot
is null or the group given is null; `_findSelectedObjects` does when both
slots are null; and `_handleGroupLogic` does when an active group exists, or
there is no active object, or the active object is the target. -/
theorem exclusive_preserved_when :
    (∀ c : Canvas, exclusive c →
      exclusive (discardActiveObject c) ∧ exclusive (discardActiveGroup c) ∧
      exclusive (deactivateAll c)) ∧
    (∀ (c : Canvas) (o : Ref) (offset : Option Offset),
      c._activeGroup = none → exclusive (setActiveObject c o offset)) ∧
    (∀ (c : Canvas) (g : Option Ref),
      (c._activeObject = none ∨ g = none) → exclusive (setActiveGroup c g)) ∧
    (∀ (M : ObjectModel) (c : Canvas),
      c._activeObject = none → c._activeGroup = none → exclusive (_findSelectedObjects M c)) ∧
    (∀ (M : ObjectModel) (c : Canvas) (e : Event) (target : Ref), exclusive c →
      (c._activeGroup ≠ none ∨ c._activeObject = none ∨ c._activeObject = some target) →
      exclusive (_handleGroupLogic M c e target)) := by
  refine ⟨?_, ?_, ?_, ?_, ?_⟩
  · intro c _
    refine ⟨Or.inl ?_, Or.inr ?_, Or.inl ?_⟩
    · simp [discardActiveObject]
    · simp [discardActiveGroup, setActiveGroup]
    · simp [deactivateAll, discardActiveObject]
  · intro c o offset hg
    right
    cases ha : c._activeObject <;> simp [setActiveObject, setActive, ha, hg]
  · intro c g h
    rcases h with h | h
    · left
      cases g <;> simp [setActiveGroup, setActive, h]
    · right
      simp [h, setActiveGroup]
  · intro M c ha hg
    obtain ⟨h1, h2⟩ := collectSelected_slots M c (selectionCorners c).1 (selectionCorners c).2
    simp only [_findSelectedObjects]
    generalize collectSelected M (selectionCorners c).1 (selectionCorners c).2 c []
      c._objects = r at h1 h2 ⊢
    rcases r with ⟨rc, rl⟩
    simp only at h1 h2
    rcases rl with _ | ⟨a, _ | ⟨b, rest⟩⟩
    · exact Or.inl (by simp [h1, ha])
    · right
      simp [setActiveObject, setActive, h1, h2, ha, hg]
    · left
      simp [newGroup, setActiveGroup, setActive, saveCoords, h1, ha]
  · intro M c e target hex h
    have hobj := handleGroupLogic_activeObject M c e target
    cases hg : c._activeGroup with
    | some g =>
      left
      rw [hobj]
      rcases hex with h' | h'
      · exact h'
      · simp [hg] at h'
    | none =>
      right
      unfold _handleGroupLogic
      simp only [resolveGroupTarget, getActiveGroup, hg]
      rcases h with h | h | h
      · exact absurd hg h
      · simp [h, setActive, hg]
      · simp [h, setActive, hg]

/-! ### C9 -/

/-- C9 (the code at the failing input): on the object list [1, 2] with active
object 1 and no active group, shift-clicking object 2 creates the active
group 10 from exactly the two objects, but its member list is [2, 1]: the
object lower in z-order (index 0) comes last, where the marquee path
`_findSelectedObjects` lists the same two objects lower first. -/
theorem shiftClick_group_order :
    indexOf oneActive._objects 1 < indexOf oneActive._objects 2 ∧
    getActiveGroup oneActive = none ∧ getActiveObject oneActive = some 1 ∧
    getActiveGroup (_handleGroupLogic (plainModel none) oneActive shiftClick 2) = some 10 ∧
    (_handleGroupLogic (plainModel none) oneActive shiftClick 2).members 10 = [2, 1] := by
  refine ⟨by decide, rfl, rfl, ?_, ?_⟩
  · simp [_handleGroupLogic, resolveGroupTarget, getActiveGroup, oneActive,
      emptyCanvas, newGroup, setActiveGroup, setActive, saveCoords]
  · simp [_handleGroupLogic, resolveGroupTarget, getActiveGroup, oneActive,
      emptyCanvas, newGroup, setActiveGroup, setActive, saveCoords, indexOf]

/-- The order the `isActiveLower` ternary of `_handleGroupLogic` produces on
every input: when no active group exists and the active object `A` differs
from the shift-clicked target `T`, the new active group is made of exactly
`A` and `T`, with member list `[T, A]` when `A` has the smaller index in
`getObjects()` and `[A, T]` otherwise, so the member lower in z-order is
never first unless the two indices are equal. -/
theorem shiftClick_group_higher_first (M : ObjectModel) (c : Canvas) (e : Event) (A T : Ref)
    (hg : getActiveGroup c = none) (hA : getActiveObject c = some A) (hne : T ≠ A) :
    getActiveGroup (_handleGroupLogic M c e T) = some c.nextRef ∧
    (_handleGroupLogic M c e T).members c.nextRef =
      (if indexOf c._objects A < indexOf c._objects T then [T, A] else [A, T]) ∧
    ∃ hi lo, (_handleGroupLogic M c e T).members c.nextRef = [hi, lo] ∧
      ((hi = T ∧ lo = A) ∨ (hi = A ∧ lo = T)) ∧
      indexOf c._objects lo ≤ indexOf c._objects hi := by
  have hg2 : c._activeGroup = none := hg
  have hA2 : c._activeObject = some A := hA
  have hmem : (_handleGroupLogic M c e T).members c.nextRef =
      (if indexOf c._objects A < indexOf c._objects T then [T, A] else [A, T]) := by
    unfold _handleGroupLogic
    simp only [resolveGroupTarget, getActiveGroup, hg2, hA2]
    by_cases h : indexOf c._objects A < indexOf c._objects T <;>
      simp [hne, h, newGroup, setActiveGroup, setActive, saveCoords, getActiveGroup]
  refine ⟨?_, hmem, ?_⟩
  · unfold _handleGroupLogic
    simp only [resolveGroupTarget, getActiveGroup, hg2, hA2]
    simp [hne, newGroup, setActiveGroup, setActive, saveCoords, getActiveGroup]
  · rw [hmem]
    by_cases h : indexOf c._objects A < indexOf c._objects T
    · exact ⟨T, A, by simp [h], Or.inl ⟨rfl, rfl⟩, le_of_lt h⟩
    · exact ⟨A, T, by simp [h], Or.inr ⟨rfl, rfl⟩, not_lt.mp h⟩

/-- An instance of `shiftClick_group_higher_first`: active object 1 below the
shift-clicked object 2; the new group is group 10. -/
theorem shiftClick_group_higher_first_witness :
    getActiveGroup oneActive = none ∧ getActiveObject oneActive = some 1 ∧ (2 : Ref) ≠ 1 ∧
    getActiveGroup (_handleGroupLogic (plainModel none) oneActive shiftClick 2) = some 10 :=
  ⟨rfl, rfl, by decide,
    (shiftClick_group_higher_first (plainModel none) oneActive shiftClick 1 2 rfl rfl
      (by decide)).1⟩

/-! ### C10 -/

theorem checkFlipped_frame (t : Transform) (sx sy : ℚ) :
    (checkFlipped t sx sy).original = t.original ∧
    (checkFlipped t sx sy).target = t.target := by
  unfold checkFlipped
  simp only []
  split_ifs <;> exact ⟨rfl, rfl⟩

theorem applyScale_centerTransform (target : FObject) (original : Original) (b : ScaleBy)
    (lx ly : ℚ) :
    (applyScale target original b lx ly).2.2.centerTransform = target.centerTransform := by
  unfold applyScale
  simp only []
  split_ifs <;> rfl

theorem scaleObject_original (M : ObjectModel) (c : Canvas) (t : Transform) (x y : ℚ)
    (b : ScaleBy) : (_scaleObject M c t x y b).original = t.original := by
  unfold _scaleObject
  simp only []
  split_ifs
  · rfl
  · exact (checkFlipped_frame _ _ _).1

theorem scaleObject_centerTransform (M : ObjectModel) (c : Canvas) (t : Transform) (x y : ℚ)
    (b : ScaleBy) :
    (_scaleObject M c t x y b).target.centerTransform = t.target.centerTransform := by
  unfold _scaleObject
  simp only []
  split_ifs
  · rfl
  · exact applyScale_centerTransform _ _ _ _ _

theorem scaleAll_original (M : ObjectModel) (c : Canvas) (calls : List (ℚ × ℚ × ScaleBy)) :
    ∀ t : Transform, (scaleAll M c t calls).original = t.original ∧
      (scaleAll M c t calls).target.centerTransform = t.target.centerTransform := by
  induction calls with
  | nil => intro t; exact ⟨rfl, rfl⟩
  | cons p rest ih =>
    intro t
    have h := ih (_scaleObject M c t p.1 p.2.1 p.2.2)
    simp only [scaleAll, List.foldl_cons] at h ⊢
    rw [h.1, h.2, scaleObject_original, scaleObject_centerTransform]
    exact ⟨rfl, rfl⟩

theorem resetCurrentTransform_original (c : Canvas) (e : Event) (t : Transform) :
    (_resetCurrentTransform c e t).original = t.original ∧
    (_resetCurrentTransform c e t).target.left = t.original.left ∧
    (_resetCurrentTransform c e t).target.top = t.original.top ∧
    (_resetCurrentTransform c e t).target.scaleX = t.original.scaleX ∧
    (_resetCurrentTransform c e t).target.scaleY = t.original.scaleY ∧
    (_resetCurrentTransform c e t).target.centerTransform = t.target.centerTransform := by
  unfold _resetCurrentTransform
  simp only []
  split_ifs <;> exact ⟨rfl, rfl, rfl, rfl, rfl, rfl⟩

theorem resetCurrentTransform_anchor (c : Canvas) (e : Event) (t : Transform) :
    ((e.altKey || c.centerTransform || t.target.centerTransform) = false →
      (_resetCurrentTransform c e t).originX = t.original.originX ∧
      (_resetCurrentTransform c e t).originY = t.original.originY) ∧
    ((e.altKey || c.centerTransform || t.target.centerTransform) = true →
      (_resetCurrentTransform c e t).originX = OriginX.center ∧
      (_resetCurrentTransform c e t).originY = OriginY.center) := by
  unfold _resetCurrentTransform
  simp only []
  constructor
  · intro h
    rw [if_neg (by simp [h])]
    exact ⟨rfl, rfl⟩
  · intro h
    rw [if_pos h]
    exact ⟨rfl, rfl⟩

theorem setupCurrentTransform_snapshot (M : ObjectModel) (c : Canvas) (e : Event)
    (target : FObject) (cur : Option Transform) :
    ∃ t0, _setupCurrentTransform M c e (some target) cur = some t0 ∧
      t0.original.left = target.left ∧ t0.original.top = target.top ∧
      t0.original.scaleX = target.scaleX ∧ t0.original.scaleY = target.scaleY ∧
      t0.target.centerTransform = target.centerTransform := by
  refine ⟨_, rfl, ?_⟩
  rw [(resetCurrentTransform_original _ _ _).1,
    (resetCurrentTransform_original _ _ _).2.2.2.2.2]
  exact ⟨rfl, rfl, rfl, rfl, rfl⟩

/-- C10 (as stated, refuted): begin on the 'br' handle of shape A (snapshot
anchor 'left', 'top'), one `_scaleObject` call, then `_resetCurrentTransform`
with an event whose alt key is held: the session anchor is ('center',
'center'), not the snapshot in `original.originX` / `original.originY`. -/
theorem reset_with_alt_key_recentres :
    ∃ t, scenario = some t ∧
      t.original.originX = OriginX.left ∧ t.original.originY = OriginY.top ∧
      (_resetCurrentTransform emptyCanvas altEvent t).originX = OriginX.center ∧
      (_resetCurrentTransform emptyCanvas altEvent t).originY = OriginY.center ∧
      (_resetCurrentTransform emptyCanvas altEvent t).originX ≠ t.original.originX := by
  have halt : ∀ t : Transform,
      (altEvent.altKey || emptyCanvas.centerTransform || t.target.centerTransform) = true := by
    intro t
    simp [altEvent]
  refine ⟨_, rfl, ?_, ?_, ?_, ?_, ?_⟩
  · simp only [scaleObject_original, (resetCurrentTransform_original _ _ _).1]
    simp [plainModel]
  · simp only [scaleObject_original, (resetCurrentTransform_original _ _ _).1]
    simp [plainModel]
  · exact ((resetCurrentTransform_anchor emptyCanvas altEvent _).2 (halt _)).1
  · exact ((resetCurrentTransform_anchor emptyCanvas altEvent _).2 (halt _)).2
  · rw [((resetCurrentTransform_anchor emptyCanvas altEvent _).2 (halt _)).1]
    simp only [scaleObject_original, (resetCurrentTransform_original _ _ _).1]
    simp [plainModel]

/-- C10 (amended): after `_setupCurrentTransform(e0, target)` and any finite
sequence of `_scaleObject` calls, `_resetCurrentTransform(e)` restores the
target's left, top, scaleX and scaleY to their values at setup and leaves the
snapshot `original` as stored at setup; the session anchor is restored to
`original.originX` / `original.originY` when none of `e.altKey`, the canvas's
`centerTransform` and the target's `centerTransform` is set, and is
('center', 'center') when one of them is set. -/
theorem scale_then_reset_restores (M : ObjectModel) (c : Canvas) (e0 e : Event)
    (target : FObject) (cur : Option Transform) (calls : List (ℚ × ℚ × ScaleBy)) :
    ∃ t0, _setupCurrentTransform M c e0 (some target) cur = some t0 ∧
      (_resetCurrentTransform c e (scaleAll M c t0 calls)).target.left = target.left ∧
      (_resetCurrentTransform c e (scaleAll M c t0 calls)).target.top = target.top ∧
      (_resetCurrentTransform c e (scaleAll M c t0 calls)).target.scaleX = target.scaleX ∧
      (_resetCurrentTransform c e (scaleAll M c t0 calls)).target.scaleY = target.scaleY ∧
      (_resetCurrentTransform c e (scaleAll M c t0 calls)).original = t0.original ∧
      ((e.altKey || c.centerTransform || target.centerTransform) = false →
        (_resetCurrentTransform c e (scaleAll M c t0 calls)).originX = t0.original.originX ∧
        (_resetCurrentTransform c e (scaleAll M c t0 calls)).originY = t0.original.originY) ∧
      ((e.altKey || c.centerTransform || target.centerTransform) = true →
        (_resetCurrentTransform c e (scaleAll M c t0 calls)).originX = OriginX.center ∧
        (_resetCurrentTransform c e (scaleAll M c t0 calls)).originY = OriginY.center) := by
  obtain ⟨t0, h0, hl, ht, hx, hy, hct⟩ := setupCurrentTransform_snapshot M c e0 target cur
  obtain ⟨ho, hc⟩ := scaleAll_original M c calls t0
  obtain ⟨r0, r1, r2, r3, r4, -⟩ := resetCurrentTransform_original c e (scaleAll M c t0 calls)
  have ha := resetCurrentTransform_anchor c e (scaleAll M c t0 calls)
  rw [hc, hct, ho] at ha
  refine ⟨t0, h0, ?_, ?_, ?_, ?_, ?_, ha.1, ha.2⟩
  · rw [r1, ho, hl]
  · rw [r2, ho, ht]
  · rw [r3, ho, hx]
  · rw [r4, ho, hy]
  · rw [r0, ho]

/-! ### C11 -/

theorem resetCurrentTransform_frame (c : Canvas) (e : Event) (t : Transform) :
    (_resetCurrentTransform c e t).offsetX = t.offsetX ∧
    (_resetCurrentTransform c e t).offsetY = t.offsetY ∧
    (_resetCurrentTransform c e t).ex = t.ex ∧
    (_resetCurrentTransform c e t).ey = t.ey ∧
    (_resetCurrentTransform c e t).left = t.left ∧
    (_resetCurrentTransform c e t).top = t.top ∧
    (_resetCurrentTransform c e t).theta = t.theta ∧
    (_resetCurrentTransform c e t).action = t.action ∧
    (_resetCurrentTransform c e t).target.lockMovementX = t.target.lockMovementX ∧
    (_resetCurrentTransform c e t).target.lockMovementY = t.target.lockMovementY ∧
    (_resetCurrentTransform c e t).target.lockRotation = t.target.lockRotation ∧
    (_resetCurrentTransform c e t).target.angle = t.target.angle := by
  unfold _resetCurrentTransform
  simp only []
  split_ifs <;> exact ⟨rfl, rfl, rfl, rfl, rfl, rfl, rfl, rfl, rfl, rfl, rfl, rfl⟩

theorem translateObject_unlocked (t : Transform) (x y : ℚ)
    (hx : t.target.lockMovementX = false) (hy : t.target.lockMovementY = false) :
    (_translateObject t x y).target.left = x - t.offsetX ∧
    (_translateObject t x y).target.top = y - t.offsetY := by
  simp [_translateObject, hx, hy]

theorem setupCurrentTransform_frame (M : ObjectModel) (c : Canvas) (e : Event)
    (target : FObject) (cur : Option Transform) :
    ∃ t0, _setupCurrentTransform M c e (some target) cur = some t0 ∧
      t0.offsetX = e.x - target.left ∧ t0.offsetY = e.y - target.top ∧
      t0.ex = e.x ∧ t0.ey = e.y ∧ t0.left = target.left ∧ t0.top = target.top ∧
      t0.theta = M.degreesToRadians target.angle ∧
      t0.target.lockMovementX = target.lockMovementX ∧
      t0.target.lockMovementY = target.lockMovementY ∧
      t0.target.lockRotation = target.lockRotation ∧
      t0.target.angle = target.angle ∧
      t0.target.left = target.left ∧ t0.target.top = target.top := by
  refine ⟨_, rfl, ?_⟩
  have hf := resetCurrentTransform_frame
  have ho := resetCurrentTransform_original
  exact ⟨(hf _ _ _).1.trans rfl, (hf _ _ _).2.1.trans rfl, (hf _ _ _).2.2.1.trans rfl,
    (hf _ _ _).2.2.2.1.trans rfl, (hf _ _ _).2.2.2.2.1.trans rfl,
    (hf _ _ _).2.2.2.2.2.1.trans rfl, (hf _ _ _).2.2.2.2.2.2.1.trans rfl,
    (hf _ _ _).2.2.2.2.2.2.2.2.1.trans rfl, (hf _ _ _).2.2.2.2.2.2.2.2.2.1.trans rfl,
    (hf _ _ _).2.2.2.2.2.2.2.2.2.2.1.trans rfl, (hf _ _ _).2.2.2.2.2.2.2.2.2.2.2.trans rfl,
    (ho _ _ _).2.1.trans rfl, (ho _ _ _).2.2.1.trans rfl⟩

/-- C11: for a target without movement locks, `_setupCurrentTransform` at
pointer (px, py) followed by `_translateObject(px, py)` leaves left and top at
their pre-drag values; and every `_translateObject(x, y)` of that session sets
left = x - offsetX and top = y - offsetY, where (offsetX, offsetY) is the
pointer-to-target offset (px - left, py - top) captured at begin. -/
theorem translate_no_movement (M : ObjectModel) (c : Canvas) (e : Event) (target : FObject)
    (cur : Option Transform)
    (hx : target.lockMovementX = false) (hy : target.lockMovementY = false) :
    ∃ t0, _setupCurrentTransform M c e (some target) cur = some t0 ∧
      t0.offsetX = e.x - target.left ∧ t0.offsetY = e.y - target.top ∧
      (_translateObject t0 e.x e.y).target.left = target.left ∧
      (_translateObject t0 e.x e.y).target.top = target.top ∧
      ∀ x y : ℚ, (_translateObject t0 x y).target.left = x - t0.offsetX ∧
        (_translateObject t0 x y).target.top = y - t0.offsetY := by
  obtain ⟨t0, h0, hox, hoy, -, -, -, -, -, hlx, hly, -, -, -, -⟩ :=
    setupCurrentTransform_frame M c e target cur
  have hgen : ∀ x y : ℚ, (_translateObject t0 x y).target.left = x - t0.offsetX ∧
      (_translateObject t0 x y).target.top = y - t0.offsetY :=
    fun x y => translateObject_unlocked t0 x y (hlx.trans hx) (hly.trans hy)
  refine ⟨t0, h0, hox, hoy, ?_, ?_, hgen⟩
  · rw [(hgen e.x e.y).1, hox]
    ring
  · rw [(hgen e.x e.y).2, hoy]
    ring

/-- Witness for C11: shape A grabbed at (110, 55) away from any handle and
translated to the same pointer stays at (0, 0). -/
theorem translate_no_movement_witness :
    shapeA.lockMovementX = false ∧ shapeA.lockMovementY = false ∧
    ∃ t0, _setupCurrentTransform (plainModel none) emptyCanvas grabEvent (some shapeA) none
        = some t0 ∧
      (_translateObject t0 110 55).target.left = 0 ∧
      (_translateObject t0 110 55).target.top = 0 := by
  obtain ⟨t0, h0, -, -, hl, ht, -⟩ :=
    translate_no_movement (plainModel none) emptyCanvas grabEvent shapeA none rfl rfl
  exact ⟨rfl, rfl, t0, h0, hl, ht⟩

/-! ### C12 -/

theorem translateObject_frame (t : Transform) (x y : ℚ) :
    (_translateObject t x y).offsetX = t.offsetX ∧
    (_translateObject t x y).offsetY = t.offsetY ∧
    (_translateObject t x y).target.lockMovementX = t.target.lockMovementX ∧
    (_translateObject t x y).target.lockMovementY = t.target.lockMovementY := by
  unfold _translateObject
  refine ⟨rfl, rfl, ?_, ?_⟩ <;> (simp only []; split_ifs <;> rfl)

theorem translateObject_lockedX (t : Transform) (x y : ℚ)
    (hx : t.target.lockMovementX = true) :
    (_translateObject t x y).target.left = t.target.left := by
  unfold _translateObject
  simp only [hx, if_true]
  split_ifs <;> rfl

theorem translateObject_unlockedY (t : Transform) (x y : ℚ)
    (hy : t.target.lockMovementY = false) :
    (_translateObject t x y).target.top = y - t.offsetY := by
  unfold _translateObject
  simp only []
  split_ifs <;> simp_all

theorem translateAll_frame (calls : List (ℚ × ℚ)) :
    ∀ t : Transform,
      (translateAll t calls).offsetX = t.offsetX ∧
      (translateAll t calls).offsetY = t.offsetY ∧
      (translateAll t calls).target.lockMovementX = t.target.lockMovementX ∧
      (translateAll t calls).target.lockMovementY = t.target.lockMovementY ∧
      (t.target.lockMovementX = true → (translateAll t calls).target.left = t.target.left) := by
  induction calls with
  | nil => intro t; exact ⟨rfl, rfl, rfl, rfl, fun _ => rfl⟩
  | cons p rest ih =>
    intro t
    obtain ⟨h1, h2, h3, h4, h5⟩ := ih (_translateObject t p.1 p.2)
    obtain ⟨f1, f2, f3, f4⟩ := translateObject_frame t p.1 p.2
    simp only [translateAll, List.foldl_cons] at h1 h2 h3 h4 h5 ⊢
    refine ⟨h1.trans f1, h2.trans f2, h3.trans f3, h4.trans f4, fun hx => ?_⟩
    rw [h5 (f3.trans hx)]
    exact translateObject_lockedX t p.1 p.2 hx

/-- C12: for a target with `lockMovementX` set, every finite sequence of
`_translateObject` calls leaves `target.left` at its value before the
sequence; the lock is per axis: when `lockMovementY` is not set, after a
non-empty sequence `target.top` is y - offsetY of the last call. -/
theorem translate_lock_enforced (t : Transform) (hx : t.target.lockMovementX = true) :
    (∀ calls : List (ℚ × ℚ), (translateAll t calls).target.left = t.target.left) ∧
    (t.target.lockMovementY = false →
      ∀ (calls : List (ℚ × ℚ)) (x y : ℚ),
        (translateAll t (calls ++ [(x, y)])).target.top = y - t.offsetY) := by
  constructor
  · intro calls
    exact (translateAll_frame calls t).2.2.2.2 hx
  · intro hy calls x y
    obtain ⟨-, h2, -, h4, -⟩ := translateAll_frame calls t
    have h : translateAll t (calls ++ [(x, y)]) = _translateObject (translateAll t calls) x y := by
      simp [translateAll, List.foldl_append]
    rw [h, translateObject_unlockedY _ x y (h4.trans hy), h2]

/-- Witness for C12: shape A with `lockMovementX`, grabbed at (110, 55) and
translated to (300, 200) and then to (5, 7): left stays 0 and top is 7 - 55. -/
theorem translate_lock_enforced_witness :
    ∃ t0, _setupCurrentTransform (plainModel none) emptyCanvas grabEvent
        (some lockedMoveShape) none = some t0 ∧
      t0.target.lockMovementX = true ∧
      (translateAll t0 [(300, 200), (5, 7)]).target.left = 0 ∧
      (translateAll t0 [(300, 200), (5, 7)]).target.top = 7 - 55 := by
  obtain ⟨t0, h0, -, hoy, -, -, -, -, -, hlx, hly, -, -, hl, -⟩ :=
    setupCurrentTransform_frame (plainModel none) emptyCanvas grabEvent lockedMoveShape none
  have hx : t0.target.lockMovementX = true := hlx.trans rfl
  have h := translate_lock_enforced t0 hx
  refine ⟨t0, h0, hx, ?_, ?_⟩
  · rw [h.1 [(300, 200), (5, 7)], hl]
    rfl
  · have h2 := h.2 (hly.trans rfl) [(300, 200)] 5 7
    rw [hoy] at h2
    simpa [grabEvent, lockedMoveShape, shapeA] using h2

/-! ### C13 -/

theorem rotateObject_frame (M : ObjectModel) (c : Canvas) (t : Transform) (x y : ℚ) :
    (_rotateObject M c t x y).ex = t.ex ∧ (_rotateObject M c t x y).ey = t.ey ∧
    (_rotateObject M c t x y).left = t.left ∧ (_rotateObject M c t x y).top = t.top ∧
    (_rotateObject M c t x y).theta = t.theta ∧
    (_rotateObject M c t x y).target.lockRotation = t.target.lockRotation := by
  unfold _rotateObject
  refine ⟨?_, ?_, ?_, ?_, ?_, ?_⟩ <;> (simp only []; split_ifs <;> rfl)

theorem rotateObject_angle (M : ObjectModel) (c : Canvas) (t : Transform) (x y : ℚ)
    (h : t.target.lockRotation = false) :
    (_rotateObject M c t x y).target.angle =
      M.radiansToDegrees
        (M.atan2 (y - t.top - c._offset.top) (x - t.left - c._offset.left) -
          M.atan2 (t.ey - t.top - c._offset.top) (t.ex - t.left - c._offset.left) + t.theta) := by
  simp [_rotateObject, h]

theorem rotateAll_frame (M : ObjectModel) (c : Canvas) (calls : List (ℚ × ℚ)) :
    ∀ t : Transform,
      (rotateAll M c t calls).ex = t.ex ∧ (rotateAll M c t calls).ey = t.ey ∧
      (rotateAll M c t calls).left = t.left ∧ (rotateAll M c t calls).top = t.top ∧
      (rotateAll M c t calls).theta = t.theta ∧
      (rotateAll M c t calls).target.lockRotation = t.target.lockRotation := by
  induction calls with
  | nil => intro t; exact ⟨rfl, rfl, rfl, rfl, rfl, rfl⟩
  | cons p rest ih =>
    intro t
    obtain ⟨h1, h2, h3, h4, h5, h6⟩ := ih (_rotateObject M c t p.1 p.2)
    obtain ⟨f1, f2, f3, f4, f5, f6⟩ := rotateObject_frame M c t p.1 p.2
    simp only [rotateAll, List.foldl_cons] at h1 h2 h3 h4 h5 h6 ⊢
    exact ⟨h1.trans f1, h2.trans f2, h3.trans f3, h4.trans f4, h5.trans f5, h6.trans f6⟩

/-- C13: in a session begun on a target without `lockRotation`, after any
number of `_rotateObject` calls with other pointers, `_rotateObject` with the
drag-start pointer (ex, ey) sets the target's angle to radiansToDegrees of the
stored theta (the drag-start angle in radians); and the angle after any call
is the one the same call gives directly after begin, so it depends only on
the session snapshot and that call's pointer. -/
theorem rotate_continuity (M : ObjectModel) (c : Canvas) (e : Event) (target : FObject)
    (cur : Option Transform) (h : target.lockRotation = false) :
    ∃ t0, _setupCurrentTransform M c e (some target) cur = some t0 ∧
      t0.ex = e.x ∧ t0.ey = e.y ∧ t0.theta = M.degreesToRadians target.angle ∧
      (∀ calls : List (ℚ × ℚ),
        (_rotateObject M c (rotateAll M c t0 calls) t0.ex t0.ey).target.angle =
          M.radiansToDegrees (M.degreesToRadians target.angle)) ∧
      (∀ (calls : List (ℚ × ℚ)) (x y : ℚ),
        (_rotateObject M c (rotateAll M c t0 calls) x y).target.angle =
          (_rotateObject M c t0 x y).target.angle) := by
  obtain ⟨t0, h0, -, -, hex, hey, -, -, hth, -, -, hlr, -, -, -⟩ :=
    setupCurrentTransform_frame M c e target cur
  have hl0 : t0.target.lockRotation = false := hlr.trans h
  refine ⟨t0, h0, hex, hey, hth, ?_, ?_⟩
  · intro calls
    obtain ⟨h1, h2, h3, h4, h5, h6⟩ := rotateAll_frame M c calls t0
    rw [rotateObject_angle M c _ _ _ (h6.trans hl0), h1, h2, h3, h4, h5, hth]
    congr 1
    ring
  · intro calls x y
    obtain ⟨h1, h2, h3, h4, h5, h6⟩ := rotateAll_frame M c calls t0
    rw [rotateObject_angle M c _ _ _ (h6.trans hl0), rotateObject_angle M c _ _ _ hl0,
      h1, h2, h3, h4, h5]

/-- Witness for C13: shape A grabbed at (110, 55), rotated towards (3, 4) and
then back to the drag-start pointer, has its drag-start angle 0 again. -/
theorem rotate_continuity_witness :
    shapeA.lockRotation = false ∧
    ∃ t0, _setupCurrentTransform (plainModel (some Corner.mtr)) emptyCanvas grabEvent
        (some shapeA) none = some t0 ∧
      (_rotateObject (plainModel (some Corner.mtr)) emptyCanvas
        (rotateAll (plainModel (some Corner.mtr)) emptyCanvas t0 [(3, 4)])
        t0.ex t0.ey).target.angle = 0 := by
  obtain ⟨t0, h0, -, -, -, h1, -⟩ :=
    rotate_continuity (plainModel (some Corner.mtr)) emptyCanvas grabEvent shapeA none rfl
  exact ⟨rfl, t0, h0, (h1 [(3, 4)]).trans rfl⟩

/-! ### C14 -/

/-- C14: for a present target the session's action is 'scaleX' for the
handles 'ml' and 'mr', 'scaleY' for 'mt' and 'mb', 'rotate' for 'mtr', 'scale'
for the other handles (tl, tr, bl, br) and 'drag' when no handle is hit; for
an absent target the call leaves `_currentTransform` as it was. -/
theorem setupCurrentTransform_action (M : ObjectModel) (c : Canvas) (e : Event)
    (cur : Option Transform) :
    (∀ target : FObject, ∃ t0, _setupCurrentTransform M c e (some target) cur = some t0 ∧
      t0.action = actionOfHandle (M._findTargetCorner target (getPointer c e) c._offset)) ∧
    _setupCurrentTransform M c e none cur = cur := by
  refine ⟨fun target => ⟨_, rfl, ?_⟩, rfl⟩
  rw [(resetCurrentTransform_frame _ _ _).2.2.2.2.2.2.2.1]
  simp only []
  cases hk : M._findTargetCorner target (getPointer c e) c._offset with
  | none => rfl
  | some k => cases k <;> simp [actionOfHandle]

/-! ### C15 -/

theorem resetCurrentTransform_signs (c : Canvas) (e : Event) (t : Transform)
    (h : (e.altKey || c.centerTransform || t.target.centerTransform) = true) :
    (_resetCurrentTransform c e t).mouseXSign =
      (if t.originX = OriginX.center then t.mouseXSign
        else if t.originX = OriginX.right then -1 else 1) ∧
    (_resetCurrentTransform c e t).mouseYSign =
      (if t.originY = OriginY.center then t.mouseYSign
        else if t.originY = OriginY.bottom then -1 else 1) := by
  unfold _resetCurrentTransform
  simp only []
  rw [if_pos h]
  constructor <;> (simp only []; split_ifs <;> first | rfl | simp_all)

theorem setupCurrentTransform_anchor (M : ObjectModel) (c : Canvas) (e : Event)
    (target : FObject) (cur : Option Transform) :
    ∃ t0, _setupCurrentTransform M c e (some target) cur = some t0 ∧
      (t0.original.originX, t0.original.originY) =
        anchorOfHandle (M._findTargetCorner target (getPointer c e) c._offset) ∧
      ((e.altKey || c.centerTransform || target.centerTransform) = false →
        t0.originX = t0.original.originX ∧ t0.originY = t0.original.originY ∧
        t0.mouseXSign = 1 ∧ t0.mouseYSign = 1) ∧
      ((e.altKey || c.centerTransform || target.centerTransform) = true →
        t0.originX = OriginX.center ∧ t0.originY = OriginY.center ∧
        t0.mouseXSign = (if t0.original.originX = OriginX.center then 1
          else if t0.original.originX = OriginX.right then -1 else 1) ∧
        t0.mouseYSign = (if t0.original.originY = OriginY.center then 1
          else if t0.original.originY = OriginY.bottom then -1 else 1)) := by
  refine ⟨_, rfl, ?_, ?_, ?_⟩
  · rw [(resetCurrentTransform_original _ _ _).1]
    simp only []
    cases hk : M._findTargetCorner target (getPointer c e) c._offset with
    | none => simp [anchorOfHandle]
    | some k => cases k <;> simp [anchorOfHandle]
  · intro h
    refine ⟨((resetCurrentTransform_anchor _ _ _).1 h).1.trans
        (congrArg Original.originX (resetCurrentTransform_original _ _ _).1.symm),
      ((resetCurrentTransform_anchor _ _ _).1 h).2.trans
        (congrArg Original.originY (resetCurrentTransform_original _ _ _).1.symm), ?_, ?_⟩
    · unfold _resetCurrentTransform
      simp only []
      rw [if_neg (by simp only [h]; decide)]
    · unfold _resetCurrentTransform
      simp only []
      rw [if_neg (by simp only [h]; decide)]
  · intro h
    refine ⟨((resetCurrentTransform_anchor _ _ _).2 h).1,
      ((resetCurrentTransform_anchor _ _ _).2 h).2, ?_, ?_⟩
    · rw [(resetCurrentTransform_signs _ _ _ h).1, (resetCurrentTransform_original _ _ _).1]
    · rw [(resetCurrentTransform_signs _ _ _ h).2, (resetCurrentTransform_original _ _ _).1]

/-- C15: after `_setupCurrentTransform` with no alt key and no
`centerTransform` flag (canvas or target), the session anchor is the one
opposite the grabbed handle: (right, bottom) for 'tl', (left, bottom) for
'tr', (right, top) for 'bl', (left, top) for 'br', (right, center) for 'ml',
(left, center) for 'mr', (center, bottom) for 'mt', (center, top) for 'mb',
(center, center) for 'mtr' and for no handle; the same pair is stored in
`original.originX` / `original.originY`. -/
theorem setupCurrentTransform_anchor_opposite (M : ObjectModel) (c : Canvas) (e : Event)
    (target : FObject) (cur : Option Transform)
    (halt : e.altKey = false) (hc : c.centerTransform = false)
    (ht : target.centerTransform = false) :
    ∃ t0, _setupCurrentTransform M c e (some target) cur = some t0 ∧
      (t0.originX, t0.originY) =
        anchorOfHandle (M._findTargetCorner target (getPointer c e) c._offset) ∧
      (t0.original.originX, t0.original.originY) =
        anchorOfHandle (M._findTargetCorner target (getPointer c e) c._offset) := by
  obtain ⟨t0, h0, ho, hplain, -⟩ := setupCurrentTransform_anchor M c e target cur
  obtain ⟨hx, hy, -, -⟩ := hplain (by simp [halt, hc, ht])
  exact ⟨t0, h0, by rw [hx, hy, ho], ho⟩

/-- Witness for C15: grabbing the 'br' handle of shape A anchors the session
at (left, top). -/
theorem setupCurrentTransform_anchor_opposite_witness :
    grabEvent.altKey = false ∧ emptyCanvas.centerTransform = false ∧
    shapeA.centerTransform = false ∧
    ∃ t0, _setupCurrentTransform (plainModel (some Corner.br)) emptyCanvas grabEvent
        (some shapeA) none = some t0 ∧
      (t0.originX, t0.originY) = (OriginX.left, OriginY.top) := by
  obtain ⟨t0, h0, h1, -⟩ := setupCurrentTransform_anchor_opposite
    (plainModel (some Corner.br)) emptyCanvas grabEvent shapeA none rfl rfl rfl
  exact ⟨rfl, rfl, rfl, t0, h0, h1⟩

/-! ### C20 -/

/-- C20 (as stated, refuted): with the shift key held (and neither the alt
key nor a `centerTransform` flag), `_setupCurrentTransform` on the 'br'
handle of shape A leaves the session anchored at (left, top), not at
(center, center). -/
theorem shift_key_keeps_anchor :
    shiftClick.shiftKey = true ∧
    ∃ t0, _setupCurrentTransform (plainModel (some Corner.br)) emptyCanvas shiftClick
        (some shapeA) none = some t0 ∧
      t0.originX = OriginX.left ∧ t0.originY = OriginY.top ∧
      t0.originX ≠ OriginX.center := by
  obtain ⟨t0, h0, ho, hplain, -⟩ := setupCurrentTransform_anchor
    (plainModel (some Corner.br)) emptyCanvas shiftClick shapeA none
  obtain ⟨hx, hy, -, -⟩ := hplain rfl
  have hox : t0.original.originX = OriginX.left := congrArg Prod.fst ho
  have hoy : t0.original.originY = OriginY.top := congrArg Prod.snd ho
  refine ⟨rfl, t0, h0, hx.trans hox, hy.trans hoy, ?_⟩
  rw [hx, hox]
  decide

/-- C20 (amended): after `_setupCurrentTransform(e, target)` with the alt key
held (`e.altKey`), or the canvas's `centerTransform` flag set, or the target's
own `centerTransform` flag set, the session anchor is ('center', 'center')
whichever handle was grabbed, and `mouseXSign` is -1 when the handle-derived
anchor was 'right' and +1 when it was 'left' (`mouseYSign` -1 for 'bottom',
+1 for 'top'). -/
theorem setupCurrentTransform_centre_collapse (M : ObjectModel) (c : Canvas) (e : Event)
    (target : FObject) (cur : Option Transform)
    (h : (e.altKey || c.centerTransform || target.centerTransform) = true) :
    ∃ t0, _setupCurrentTransform M c e (some target) cur = some t0 ∧
      t0.originX = OriginX.center ∧ t0.originY = OriginY.center ∧
      ((anchorOfHandle (M._findTargetCorner target (getPointer c e) c._offset)).1
          = OriginX.right → t0.mouseXSign = -1) ∧
      ((anchorOfHandle (M._findTargetCorner target (getPointer c e) c._offset)).1
          = OriginX.left → t0.mouseXSign = 1) ∧
      ((anchorOfHandle (M._findTargetCorner target (getPointer c e) c._offset)).2
          = OriginY.bottom → t0.mouseYSign = -1) ∧
      ((anchorOfHandle (M._findTargetCorner target (getPointer c e) c._offset)).2
          = OriginY.top → t0.mouseYSign = 1) := by
  obtain ⟨t0, h0, ho, -, hcentre⟩ := setupCurrentTransform_anchor M c e target cur
  obtain ⟨hx, hy, hsx, hsy⟩ := hcentre h
  have hox : t0.original.originX =
      (anchorOfHandle (M._findTargetCorner target (getPointer c e) c._offset)).1 :=
    congrArg Prod.fst ho
  have hoy : t0.original.originY =
      (anchorOfHandle (M._findTargetCorner target (getPointer c e) c._offset)).2 :=
    congrArg Prod.snd ho
  rw [hox] at hsx
  rw [hoy] at hsy
  refine ⟨t0, h0, hx, hy, ?_, ?_, ?_, ?_⟩
  · intro ha
    rw [hsx, ha]
    simp
  · intro ha
    rw [hsx, ha]
    simp
  · intro ha
    rw [hsy, ha]
    simp
  · intro ha
    rw [hsy, ha]
    simp

/-- Witness for C20 (amended): with the alt key held, grabbing the 'tl'
handle of shape A (handle anchor right, bottom) gives the anchor (center,
center) and both sign flags -1. -/
theorem setupCurrentTransform_centre_collapse_witness :
    (altEvent.altKey || emptyCanvas.centerTransform || shapeA.centerTransform) = true ∧
    ∃ t0, _setupCurrentTransform (plainModel (some Corner.tl)) emptyCanvas altEvent
        (some shapeA) none = some t0 ∧
      t0.originX = OriginX.center ∧ t0.originY = OriginY.center ∧
      t0.mouseXSign = -1 ∧ t0.mouseYSign = -1 := by
  obtain ⟨t0, h0, hx, hy, h1, -, h3, -⟩ := setupCurrentTransform_centre_collapse
    (plainModel (some Corner.tl)) emptyCanvas altEvent shapeA none rfl
  exact ⟨rfl, t0, h0, hx, hy, h1 rfl, h3 rfl⟩

/-! ### Scaling lemmas -/

theorem scaleObject_locked (M : ObjectModel) (c : Canvas) (t : Transform) (x y : ℚ)
    (b : ScaleBy) (h : (t.target.lockScalingX && t.target.lockScalingY) = true) :
    _scaleObject M c t x y b = t := by
  unfold _scaleObject
  simp only []
  rw [if_pos h]

theorem scaleObject_unlocked (M : ObjectModel) (c : Canvas) (t : Transform) (x y : ℚ)
    (b : ScaleBy) (h : (t.target.lockScalingX && t.target.lockScalingY) = false) :
    _scaleObject M c t x y b =
      { flippedSession M c t x y b with
        target :=
          { scaledTarget M c t x y b with
            left := (M.setPositionByOrigin (scaledTarget M c t x y b)
              (M.translateToOriginPoint t.target (M.getCenterPoint t.target) t.originX
                t.originY)
              (flippedSession M c t x y b).originX (flippedSession M c t x y b).originY).x
            top := (M.setPositionByOrigin (scaledTarget M c t x y b)
              (M.translateToOriginPoint t.target (M.getCenterPoint t.target) t.originX
                t.originY)
              (flippedSession M c t x y b).originX (flippedSession M c t x y b).originY).y } } := by
  unfold _scaleObject
  simp only []
  rw [if_neg (by simp [h])]
  rfl

theorem checkFlipped_eq (t : Transform) (sx sy : ℚ) :
    checkFlipped t sx sy =
      { t with
        originX := if sx < 0 then swapOriginX t.originX else t.originX
        originY := if sy < 0 then swapOriginY t.originY else t.originY } := by
  obtain ⟨_, _, _, _, _, _, ox, oy, _, _, _, _, _, _, _, _, _⟩ := t
  cases ox <;> cases oy <;> simp only [checkFlipped] <;> split_ifs <;>
    simp_all [swapOriginX, swapOriginY]

/-! ### C16 -/

/-- C16 (as stated, refuted): (1) begun with the alt key on shape A (anchor
'center', scaleX = 1), `_scaleObject(0, 0, 'equally')` gives scaleX = -1, a
different sign, and originX stays 'center'; (2) on the mirrored shape
(scaleX = -1, anchor 'left'), `_scaleObject(-50, 50, 'x')` gives scaleX =
-1/2, the same sign, and originX is swapped to 'right', while
`_scaleObject(50, 50, 'x')` gives scaleX = 1/2, a different sign, and originX
stays 'left'. -/
theorem flip_check_not_by_prior_sign :
    (∃ t0, beginOn (some Corner.br) altEvent shapeA = some t0 ∧
      t0.target.scaleX = 1 ∧ t0.originX = OriginX.center ∧
      (_scaleObject (plainModel none) emptyCanvas t0 0 0 ScaleBy.equally).target.scaleX = -1 ∧
      (_scaleObject (plainModel none) emptyCanvas t0 0 0 ScaleBy.equally).originX
        = OriginX.center) ∧
    (∃ t0, beginOn (some Corner.br) grabEvent mirroredShape = some t0 ∧
      t0.target.scaleX = -1 ∧ t0.originX = OriginX.left ∧
      (_scaleObject (plainModel none) emptyCanvas t0 (-50) 50 ScaleBy.x).target.scaleX
        = -1 / 2 ∧
      (_scaleObject (plainModel none) emptyCanvas t0 (-50) 50 ScaleBy.x).originX
        = OriginX.right ∧
      (_scaleObject (plainModel none) emptyCanvas t0 50 50 ScaleBy.x).target.scaleX = 1 / 2 ∧
      (_scaleObject (plainModel none) emptyCanvas t0 50 50 ScaleBy.x).originX
        = OriginX.left) := by
  constructor
  · refine ⟨_, rfl, ?_⟩
    simp [_scaleObject, applyScale, checkFlipped, _resetCurrentTransform, plainModel,
      emptyCanvas, shapeA, altEvent, adjustLocal, adjustPadding, toLocalPoint,
      translateToOriginPoint, getCenterPoint, translateToCenterPoint, halfWidth, halfHeight,
      getPointer, setPositionByOrigin]
    norm_num
  · refine ⟨_, rfl, ?_⟩
    simp [_scaleObject, applyScale, checkFlipped, _resetCurrentTransform, plainModel,
      emptyCanvas, shapeA, mirroredShape, grabEvent, adjustLocal, adjustPadding, toLocalPoint,
      translateToOriginPoint, getCenterPoint, translateToCenterPoint, halfWidth, halfHeight,
      getPointer, setPositionByOrigin]
    norm_num

/-- C16 (amended): when `_scaleObject` does not return at its lock guard,
the session's originX is swapped between 'left' and 'right' exactly when the
computed factor newScaleX is negative and the anchor is 'left' or 'right' (a
'center' anchor is never changed), and originY is swapped between 'top' and
'bottom' exactly when newScaleY is negative; when a factor is not negative
the corresponding anchor is unchanged. The target's scale after the call is
the computed factor or, where the call does not store it, its prior value. -/
theorem scaleObject_flip_check (M : ObjectModel) (c : Canvas) (t : Transform) (x y : ℚ)
    (b : ScaleBy) :
    ((t.target.lockScalingX && t.target.lockScalingY) = true →
      _scaleObject M c t x y b = t) ∧
    ((t.target.lockScalingX && t.target.lockScalingY) = false →
      (_scaleObject M c t x y b).originX =
        (if (scaleFactors M c t x y b).1 < 0 then swapOriginX t.originX else t.originX) ∧
      (_scaleObject M c t x y b).originY =
        (if (scaleFactors M c t x y b).2 < 0 then swapOriginY t.originY else t.originY) ∧
      ((_scaleObject M c t x y b).target.scaleX = (scaleFactors M c t x y b).1 ∨
        (_scaleObject M c t x y b).target.scaleX = t.target.scaleX) ∧
      ((_scaleObject M c t x y b).target.scaleY = (scaleFactors M c t x y b).2 ∨
        (_scaleObject M c t x y b).target.scaleY = t.target.scaleY)) := by
  refine ⟨scaleObject_locked M c t x y b, fun h => ?_⟩
  rw [scaleObject_unlocked M c t x y b h]
  refine ⟨?_, ?_, ?_, ?_⟩
  · simp only [flippedSession, checkFlipped_eq]
  · simp only [flippedSession, checkFlipped_eq]
  · simp only [scaledTarget, scaleFactors, applyScale]
    split_ifs <;> simp
  · simp only [scaledTarget, scaleFactors, applyScale]
    split_ifs <;> simp

/-! ### C17 -/

/-- C17 (as stated, refuted): on the zero-sized shape `pointShape` (no scaling
lock), begun on the 'br' handle, the call `_scaleObject(0, 0, 'equally')` has
both local offsets 0, so dist = 0, and lastDist = 0: both factors are 0 / 0 =
NaN, and newScaleX * original.scaleY is not equal to newScaleY *
original.scaleX, as NaN is equal to nothing. -/
theorem equally_ratio_fails_on_point_shape :
    ∃ t0, beginOn (some Corner.br) grabEvent pointShape = some t0 ∧
      t0.target.lockScalingX = false ∧ t0.target.lockScalingY = false ∧
      (scaleLocal (plainModel none) emptyCanvas t0 0 0).1 = 0 ∧
      (scaleLocal (plainModel none) emptyCanvas t0 0 0).2.1 = 0 ∧
      (t0.target.height + t0.target.strokeWidth) * t0.original.scaleY +
        (t0.target.width + t0.target.strokeWidth) * t0.original.scaleX = 0 ∧
      equallyFactors t0.target t0.original
          (scaleLocal (plainModel none) emptyCanvas t0 0 0).1
          (scaleLocal (plainModel none) emptyCanvas t0 0 0).2.1 =
        (JSNumber.nan, JSNumber.nan) ∧
      canStrictEqual
          (jsMultiply (equallyFactors t0.target t0.original
            (scaleLocal (plainModel none) emptyCanvas t0 0 0).1
            (scaleLocal (plainModel none) emptyCanvas t0 0 0).2.1).1 t0.original.scaleY)
          (jsMultiply (equallyFactors t0.target t0.original
            (scaleLocal (plainModel none) emptyCanvas t0 0 0).1
            (scaleLocal (plainModel none) emptyCanvas t0 0 0).2.1).2 t0.original.scaleX)
        = false := by
  refine ⟨_, rfl, ?_⟩
  simp [equallyFactors, jsDivide, jsMultiply, canStrictEqual, scaleLocal,
    _resetCurrentTransform, plainModel, emptyCanvas, shapeA, pointShape, grabEvent,
    adjustLocal, adjustPadding, toLocalPoint, translateToOriginPoint, getCenterPoint,
    translateToCenterPoint, halfWidth, halfHeight, getPointer]

/-- C17 (amended): in `_scaleObject` with by = 'equally', neither
`lockScalingX` nor `lockScalingY` set and lastDist = (height + strokeWidth) *
original.scaleY + (width + strokeWidth) * original.scaleX not zero, both new
factors are finite numbers, and in exact arithmetic both, as computed and as
stored in the target, are the snapshot factors times the one ratio dist /
lastDist, where dist is the sum of the padding-adjusted local y and x
offsets; hence in exact arithmetic newScaleX * original.scaleY = newScaleY *
original.scaleX for every pointer. -/
theorem scaleObject_equally_ratio (M : ObjectModel) (c : Canvas) (t : Transform) (x y : ℚ)
    (hx : t.target.lockScalingX = false) (hy : t.target.lockScalingY = false)
    (hl : (t.target.height + t.target.strokeWidth) * t.original.scaleY +
      (t.target.width + t.target.strokeWidth) * t.original.scaleX ≠ 0) :
    equallyFactors t.target t.original (scaleLocal M c t x y).1 (scaleLocal M c t x y).2.1 =
      (JSNumber.finite (scaleFactors M c t x y ScaleBy.equally).1,
        JSNumber.finite (scaleFactors M c t x y ScaleBy.equally).2) ∧
    scaleFactors M c t x y ScaleBy.equally =
      (t.original.scaleX * ((scaleLocal M c t x y).2.1 + (scaleLocal M c t x y).1) /
          ((t.target.height + t.target.strokeWidth) * t.original.scaleY +
            (t.target.width + t.target.strokeWidth) * t.original.scaleX),
        t.original.scaleY * ((scaleLocal M c t x y).2.1 + (scaleLocal M c t x y).1) /
          ((t.target.height + t.target.strokeWidth) * t.original.scaleY +
            (t.target.width + t.target.strokeWidth) * t.original.scaleX)) ∧
    (_scaleObject M c t x y ScaleBy.equally).target.scaleX =
      (scaleFactors M c t x y ScaleBy.equally).1 ∧
    (_scaleObject M c t x y ScaleBy.equally).target.scaleY =
      (scaleFactors M c t x y ScaleBy.equally).2 ∧
    (_scaleObject M c t x y ScaleBy.equally).target.scaleX * t.original.scaleY =
      (_scaleObject M c t x y ScaleBy.equally).target.scaleY * t.original.scaleX := by
  have hf : scaleFactors M c t x y ScaleBy.equally =
      (t.original.scaleX * ((scaleLocal M c t x y).2.1 + (scaleLocal M c t x y).1) /
          ((t.target.height + t.target.strokeWidth) * t.original.scaleY +
            (t.target.width + t.target.strokeWidth) * t.original.scaleX),
        t.original.scaleY * ((scaleLocal M c t x y).2.1 + (scaleLocal M c t x y).1) /
          ((t.target.height + t.target.strokeWidth) * t.original.scaleY +
            (t.target.width + t.target.strokeWidth) * t.original.scaleX)) := by
    simp [scaleFactors, applyScale, hx, hy]
  have hsx : (_scaleObject M c t x y ScaleBy.equally).target.scaleX =
      (scaleFactors M c t x y ScaleBy.equally).1 := by
    rw [scaleObject_unlocked M c t x y _ (by simp [hx])]
    simp [scaledTarget, scaleFactors, applyScale, hx, hy]
  have hsy : (_scaleObject M c t x y ScaleBy.equally).target.scaleY =
      (scaleFactors M c t x y ScaleBy.equally).2 := by
    rw [scaleObject_unlocked M c t x y _ (by simp [hx])]
    simp [scaledTarget, scaleFactors, applyScale, hx, hy]
  refine ⟨?_, hf, hsx, hsy, ?_⟩
  · rw [hf]
    simp only [equallyFactors, jsDivide, if_neg hl]
  · rw [hsx, hsy, hf]
    simp only []
    ring

/-- Witness for C17 (amended): in the scenario lastDist = 150, both factors
are 21/10 and shape A keeps its aspect ratio. -/
theorem scaleObject_equally_ratio_witness :
    shapeA.lockScalingX = false ∧ shapeA.lockScalingY = false ∧
    ∃ t0, beginOn (some Corner.br) grabEvent shapeA = some t0 ∧
      (t0.target.height + t0.target.strokeWidth) * t0.original.scaleY +
        (t0.target.width + t0.target.strokeWidth) * t0.original.scaleX ≠ 0 ∧
      (_scaleObject (plainModel none) emptyCanvas t0 210 105 ScaleBy.equally).target.scaleX
          * t0.original.scaleY =
        (_scaleObject (plainModel none) emptyCanvas t0 210 105 ScaleBy.equally).target.scaleY
          * t0.original.scaleX := by
  have hl : (50 + 0 : ℚ) * 1 + (100 + 0) * 1 ≠ 0 := by norm_num
  refine ⟨rfl, rfl, _, rfl, ?_, ?_⟩
  · simpa [_resetCurrentTransform, shapeA, emptyCanvas, grabEvent] using hl
  · exact (scaleObject_equally_ratio (plainModel none) emptyCanvas _ 210 105
      (by simp [_resetCurrentTransform, shapeA, emptyCanvas, grabEvent])
      (by simp [_resetCurrentTransform, shapeA, emptyCanvas, grabEvent])
      (by simpa [_resetCurrentTransform, shapeA, emptyCanvas, grabEvent] using hl)).2.2.2.2

/-! ### Lemmas on the unrotated geometry -/

theorem plain_reanchor_same (o : FObject) (ox : OriginX) (oy : OriginY) :
    setPositionByOrigin o (translateToOriginPoint o (getCenterPoint o) ox oy) ox oy =
      { x := o.left, y := o.top } := by
  cases ox <;> cases oy <;> cases hx : o.originX <;> cases hy : o.originY <;>
    simp [setPositionByOrigin, translateToOriginPoint, translateToCenterPoint, getCenterPoint,
      hx, hy]

theorem plain_anchor_fixed (o : FObject) (q : Point) (ox : OriginX) (oy : OriginY) :
    translateToOriginPoint
        { o with left := (setPositionByOrigin o q ox oy).x
                 top := (setPositionByOrigin o q ox oy).y }
        (getCenterPoint
          { o with left := (setPositionByOrigin o q ox oy).x
                   top := (setPositionByOrigin o q ox oy).y }) ox oy = q := by
  cases ox <;> cases oy <;> cases hx : o.originX <;> cases hy : o.originY <;>
    simp [setPositionByOrigin, translateToOriginPoint, translateToCenterPoint, getCenterPoint,
      halfWidth, halfHeight, hx, hy]

theorem plain_setPosition_moved (o : FObject) (l tp : ℚ) (q : Point) (ox : OriginX)
    (oy : OriginY) :
    setPositionByOrigin { o with left := l, top := tp } q ox oy =
      setPositionByOrigin o q ox oy := rfl

theorem applyScale_frame (o : FObject) (orig : Original) (b : ScaleBy) (lx ly : ℚ) :
    (applyScale o orig b lx ly).2.2.lockScalingX = o.lockScalingX ∧
    (applyScale o orig b lx ly).2.2.lockScalingY = o.lockScalingY ∧
    (applyScale o orig b lx ly).2.2.padding = o.padding := by
  unfold applyScale
  simp only []
  split_ifs <;> exact ⟨rfl, rfl, rfl⟩

theorem applyScale_again (o : FObject) (orig : Original) (b : ScaleBy) (lx ly l tp : ℚ) :
    applyScale { (applyScale o orig b lx ly).2.2 with left := l, top := tp } orig b lx ly =
      ((applyScale o orig b lx ly).1, (applyScale o orig b lx ly).2.1,
        { (applyScale o orig b lx ly).2.2 with left := l, top := tp }) := by
  cases hX : o.lockScalingX <;> cases hY : o.lockScalingY <;> cases hU : o.lockUniScaling <;>
    cases b <;> simp [applyScale, hX, hY, hU]

/-! ### C19 -/

theorem adjustLocal_sign (far : Bool) (v sign : ℚ) : (adjustLocal far false v sign).2 = sign := by
  cases far <;> simp [adjustLocal]

theorem scaleLocal_signs (M : ObjectModel) (c : Canvas) (t : Transform) (x y : ℚ) :
    (t.originX ≠ OriginX.center → (scaleLocal M c t x y).2.2.1 = t.mouseXSign) ∧
    (t.originY ≠ OriginY.center → (scaleLocal M c t x y).2.2.2 = t.mouseYSign) := by
  constructor
  · intro h
    simp [scaleLocal, h, adjustLocal_sign]
  · intro h
    simp [scaleLocal, h, adjustLocal_sign]

theorem flippedSession_fields (M : ObjectModel) (c : Canvas) (t : Transform) (x y : ℚ)
    (b : ScaleBy) :
    (flippedSession M c t x y b).originX =
      (if (scaleFactors M c t x y b).1 < 0 then swapOriginX t.originX else t.originX) ∧
    (flippedSession M c t x y b).originY =
      (if (scaleFactors M c t x y b).2 < 0 then swapOriginY t.originY else t.originY) ∧
    (flippedSession M c t x y b).mouseXSign = (scaleLocal M c t x y).2.2.1 ∧
    (flippedSession M c t x y b).mouseYSign = (scaleLocal M c t x y).2.2.2 ∧
    (flippedSession M c t x y b).original = t.original := by
  simp [flippedSession, checkFlipped_eq]

theorem scaledTarget_lockedX (M : ObjectModel) (c : Canvas) (t : Transform) (x y : ℚ)
    (hX : t.target.lockScalingX = true) :
    scaledTarget M c t x y ScaleBy.x = t.target ∧
    (scaleFactors M c t x y ScaleBy.x).2 = t.target.scaleY := by
  cases hU : t.target.lockUniScaling <;>
    simp [scaledTarget, scaleFactors, applyScale, hX, hU]

/-- C19 (the code at the failing input): shape A with `lockScalingX` set (and
`lockScalingY` not set), begun on the 'br' handle (anchor 'left', left = 0,
scaleX = 1): `_scaleObject(-10, 60, 'x')` stores no new factor, so the target
has not flipped, yet the block "Check if we flipped" swaps the session's
originX to 'right' and the target is moved to left = -100. -/
theorem locked_axis_still_flips :
    ∃ t0, beginOn (some Corner.br) grabEvent lockedScaleShape = some t0 ∧
      t0.target.lockScalingX = true ∧ t0.target.lockScalingY = false ∧
      t0.originX = OriginX.left ∧ t0.target.left = 0 ∧
      (_scaleObject (plainModel none) emptyCanvas t0 (-10) 60 ScaleBy.x).originX
        = OriginX.right ∧
      (_scaleObject (plainModel none) emptyCanvas t0 (-10) 60 ScaleBy.x).target.left
        = -100 := by
  refine ⟨_, rfl, ?_⟩
  simp [_scaleObject, applyScale, checkFlipped, _resetCurrentTransform, plainModel,
    emptyCanvas, shapeA, lockedScaleShape, grabEvent, adjustLocal, adjustPadding, toLocalPoint,
    translateToOriginPoint, getCenterPoint, translateToCenterPoint, halfWidth, halfHeight,
    getPointer, setPositionByOrigin]
  norm_num

/-- The part of a locked call that is a no-op: for a target with
`lockScalingX` set and `lockScalingY` not set, `_scaleObject(x, y, 'x')`
leaves the target's scaleX and scaleY unchanged; originX is unchanged when
the computed (and unapplied) factor newScaleX is not negative and originY
when the target's scaleY is not negative; a sign flag is unchanged when the
anchor of its axis is not 'center'; with the unrotated geometry, left and top
are unchanged when the anchor is. And `_scaleObject` returns without any
change when both `lockScalingX` and `lockScalingY` are set. -/
theorem scaleObject_locked_axis (M : ObjectModel) (c : Canvas) (t : Transform) (x y : ℚ)
    (hX : t.target.lockScalingX = true) (hY : t.target.lockScalingY = false) :
    (_scaleObject M c t x y ScaleBy.x).target.scaleX = t.target.scaleX ∧
    (_scaleObject M c t x y ScaleBy.x).target.scaleY = t.target.scaleY ∧
    (¬ (scaleFactors M c t x y ScaleBy.x).1 < 0 →
      (_scaleObject M c t x y ScaleBy.x).originX = t.originX) ∧
    (¬ t.target.scaleY < 0 → (_scaleObject M c t x y ScaleBy.x).originY = t.originY) ∧
    (t.originX ≠ OriginX.center →
      (_scaleObject M c t x y ScaleBy.x).mouseXSign = t.mouseXSign) ∧
    (t.originY ≠ OriginY.center →
      (_scaleObject M c t x y ScaleBy.x).mouseYSign = t.mouseYSign) ∧
    (∀ k : Option Corner,
      (_scaleObject (plainModel k) c t x y ScaleBy.x).originX = t.originX →
      (_scaleObject (plainModel k) c t x y ScaleBy.x).originY = t.originY →
      (_scaleObject (plainModel k) c t x y ScaleBy.x).target.left = t.target.left ∧
      (_scaleObject (plainModel k) c t x y ScaleBy.x).target.top = t.target.top) ∧
    (∀ (t' : Transform) (b : ScaleBy),
      (t'.target.lockScalingX && t'.target.lockScalingY) = true →
      _scaleObject M c t' x y b = t') := by
  have h : (t.target.lockScalingX && t.target.lockScalingY) = false := by simp [hY]
  have hS := scaledTarget_lockedX M c t x y hX
  obtain ⟨fx, fy, fsx, fsy, -⟩ := flippedSession_fields M c t x y ScaleBy.x
  refine ⟨?_, ?_, ?_, ?_, ?_, ?_, ?_, fun t' b h' => scaleObject_locked M c t' x y b h'⟩
  · rw [scaleObject_unlocked M c t x y _ h, hS.1]
  · rw [scaleObject_unlocked M c t x y _ h, hS.1]
  · intro hf
    rw [scaleObject_unlocked M c t x y _ h]
    simp only [fx, if_neg hf]
  · intro hf
    rw [scaleObject_unlocked M c t x y _ h]
    simp only [fy, hS.2, if_neg hf]
  · intro hc
    rw [scaleObject_unlocked M c t x y _ h]
    simp only [fsx, (scaleLocal_signs M c t x y).1 hc]
  · intro hc
    rw [scaleObject_unlocked M c t x y _ h]
    simp only [fsy, (scaleLocal_signs M c t x y).2 hc]
  · intro k
    have hSk := (scaledTarget_lockedX (plainModel k) c t x y hX).1
    rw [scaleObject_unlocked (plainModel k) c t x y _ h]
    simp only [hSk]
    intro hox hoy
    rw [hox, hoy]
    have hp := plain_reanchor_same t.target t.originX t.originY
    constructor
    · exact congrArg Point.x hp
    · exact congrArg Point.y hp

/-- An instance of `scaleObject_locked_axis`: shape A with `lockScalingX`,
begun on the 'br' handle; `_scaleObject(10, 60, 'x')` leaves scaleX = 1 and
scaleY = 1. -/
theorem scaleObject_locked_axis_witness :
    ∃ t0, beginOn (some Corner.br) grabEvent lockedScaleShape = some t0 ∧
      t0.target.lockScalingX = true ∧ t0.target.lockScalingY = false ∧
      (_scaleObject (plainModel none) emptyCanvas t0 10 60 ScaleBy.x).target.scaleX = 1 ∧
      (_scaleObject (plainModel none) emptyCanvas t0 10 60 ScaleBy.x).target.scaleY = 1 := by
  refine ⟨_, rfl, ?_, ?_, ?_, ?_⟩
  · simp [_resetCurrentTransform, lockedScaleShape, shapeA, emptyCanvas, grabEvent]
  · simp [_resetCurrentTransform, lockedScaleShape, shapeA, emptyCanvas, grabEvent]
  · refine Eq.trans (scaleObject_locked_axis _ _ _ _ _ ?_ ?_).1 ?_ <;>
      simp [_resetCurrentTransform, lockedScaleShape, shapeA, emptyCanvas, grabEvent]
  · refine Eq.trans (scaleObject_locked_axis _ _ _ _ _ ?_ ?_).2.1 ?_ <;>
      simp [_resetCurrentTransform, lockedScaleShape, shapeA, emptyCanvas, grabEvent]

/-! ### C18 -/

theorem flippedSession_fixed (M : ObjectModel) (c : Canvas) (t : Transform) (x y : ℚ)
    (b : ScaleBy)
    (hox : (flippedSession M c t x y b).originX = t.originX)
    (hoy : (flippedSession M c t x y b).originY = t.originY)
    (hsx : (flippedSession M c t x y b).mouseXSign = t.mouseXSign)
    (hsy : (flippedSession M c t x y b).mouseYSign = t.mouseYSign) :
    flippedSession M c t x y b = t := by
  obtain ⟨fx, fy, fsx, fsy, -⟩ := flippedSession_fields M c t x y b
  have e1 := fx.symm.trans hox
  have e2 := fy.symm.trans hoy
  have e3 := fsx.symm.trans hsx
  have e4 := fsy.symm.trans hsy
  unfold flippedSession
  rw [checkFlipped_eq]
  simp only []
  rw [e1, e2, e3, e4]

theorem plain_scaleLocal_again (k : Option Corner) (c : Canvas) (t : Transform) (x y : ℚ)
    (S : FObject) (hp : S.padding = t.target.padding) :
    scaleLocal (plainModel k) c
        { t with target :=
          { S with
            left := (setPositionByOrigin S
              (translateToOriginPoint t.target (getCenterPoint t.target) t.originX t.originY)
              t.originX t.originY).x
            top := (setPositionByOrigin S
              (translateToOriginPoint t.target (getCenterPoint t.target) t.originX t.originY)
              t.originX t.originY).y } } x y =
      scaleLocal (plainModel k) c t x y := by
  have ha := plain_anchor_fixed S
    (translateToOriginPoint t.target (getCenterPoint t.target) t.originX t.originY)
    t.originX t.originY
  simp only [scaleLocal, plainModel, toLocalPoint]
  rw [ha]
  simp only [hp]

theorem plain_second_call (k : Option Corner) (c : Canvas) (t : Transform) (x y : ℚ)
    (b : ScaleBy) (S : FObject) (hS : S = scaledTarget (plainModel k) c t x y b)
    (h : (t.target.lockScalingX && t.target.lockScalingY) = false)
    (hF : flippedSession (plainModel k) c t x y b = t) :
    _scaleObject (plainModel k) c
        { t with target :=
          { S with
            left := (setPositionByOrigin S
              (translateToOriginPoint t.target (getCenterPoint t.target) t.originX t.originY)
              t.originX t.originY).x
            top := (setPositionByOrigin S
              (translateToOriginPoint t.target (getCenterPoint t.target) t.originX t.originY)
              t.originX t.originY).y } } x y b =
      { t with target :=
          { S with
            left := (setPositionByOrigin S
              (translateToOriginPoint t.target (getCenterPoint t.target) t.originX t.originY)
              t.originX t.originY).x
            top := (setPositionByOrigin S
              (translateToOriginPoint t.target (getCenterPoint t.target) t.originX t.originY)
              t.originX t.originY).y } } := by
  obtain ⟨hlx, hly, hpad⟩ := applyScale_frame t.target t.original b
    (scaleLocal (plainModel k) c t x y).1 (scaleLocal (plainModel k) c t x y).2.1
  have hSp : S.padding = t.target.padding := by rw [hS]; exact hpad
  have hSx : S.lockScalingX = t.target.lockScalingX := by rw [hS]; exact hlx
  have hSy : S.lockScalingY = t.target.lockScalingY := by rw [hS]; exact hly
  have hA := plain_scaleLocal_again k c t x y S hSp
  have hap : applyScale ({ t with target :=
          { S with
            left := (setPositionByOrigin S
              (translateToOriginPoint t.target (getCenterPoint t.target) t.originX t.originY)
              t.originX t.originY).x
            top := (setPositionByOrigin S
              (translateToOriginPoint t.target (getCenterPoint t.target) t.originX t.originY)
              t.originX t.originY).y } }).target t.original b
        (scaleLocal (plainModel k) c t x y).1 (scaleLocal (plainModel k) c t x y).2.1 =
      ((scaleFactors (plainModel k) c t x y b).1, (scaleFactors (plainModel k) c t x y b).2,
        ({ t with target :=
          { S with
            left := (setPositionByOrigin S
              (translateToOriginPoint t.target (getCenterPoint t.target) t.originX t.originY)
              t.originX t.originY).x
            top := (setPositionByOrigin S
              (translateToOriginPoint t.target (getCenterPoint t.target) t.originX t.originY)
              t.originX t.originY).y } }).target) := by
    subst hS
    exact applyScale_again t.target t.original b _ _ _ _
  have hST : scaledTarget (plainModel k) c ({ t with target :=
          { S with
            left := (setPositionByOrigin S
              (translateToOriginPoint t.target (getCenterPoint t.target) t.originX t.originY)
              t.originX t.originY).x
            top := (setPositionByOrigin S
              (translateToOriginPoint t.target (getCenterPoint t.target) t.originX t.originY)
              t.originX t.originY).y } }) x y b = ({ t with target :=
          { S with
            left := (setPositionByOrigin S
              (translateToOriginPoint t.target (getCenterPoint t.target) t.originX t.originY)
              t.originX t.originY).x
            top := (setPositionByOrigin S
              (translateToOriginPoint t.target (getCenterPoint t.target) t.originX t.originY)
              t.originX t.originY).y } }).target := by
    unfold scaledTarget
    simp only []
    rw [hA]
    exact congrArg (fun r => r.2.2) hap
  have hSF : scaleFactors (plainModel k) c ({ t with target :=
          { S with
            left := (setPositionByOrigin S
              (translateToOriginPoint t.target (getCenterPoint t.target) t.originX t.originY)
              t.originX t.originY).x
            top := (setPositionByOrigin S
              (translateToOriginPoint t.target (getCenterPoint t.target) t.originX t.originY)
              t.originX t.originY).y } }) x y b =
      scaleFactors (plainModel k) c t x y b := by
    unfold scaleFactors
    simp only []
    rw [hA]
    have h1 := congrArg (fun r => r.1) hap
    have h2 := congrArg (fun r => r.2.1) hap
    simp only [] at h1 h2
    rw [h1, h2]
    rfl
  have hl1 : (({ t with target :=
          { S with
            left := (setPositionByOrigin S
              (translateToOriginPoint t.target (getCenterPoint t.target) t.originX t.originY)
              t.originX t.originY).x
            top := (setPositionByOrigin S
              (translateToOriginPoint t.target (getCenterPoint t.target) t.originX t.originY)
              t.originX t.originY).y } }).target.lockScalingX && ({ t with target :=
          { S with
            left := (setPositionByOrigin S
              (translateToOriginPoint t.target (getCenterPoint t.target) t.originX t.originY)
              t.originX t.originY).x
            top := (setPositionByOrigin S
              (translateToOriginPoint t.target (getCenterPoint t.target) t.originX t.originY)
              t.originX t.originY).y } }).target.lockScalingY) = false := by
    show (S.lockScalingX && S.lockScalingY) = false
    rw [hSx, hSy]
    exact h
  obtain ⟨fx, fy, fsx, fsy, -⟩ := flippedSession_fields (plainModel k) c t x y b
  obtain ⟨gx, gy, gsx, gsy, -⟩ := flippedSession_fields (plainModel k) c ({ t with target :=
          { S with
            left := (setPositionByOrigin S
              (translateToOriginPoint t.target (getCenterPoint t.target) t.originX t.originY)
              t.originX t.originY).x
            top := (setPositionByOrigin S
              (translateToOriginPoint t.target (getCenterPoint t.target) t.originX t.originY)
              t.originX t.originY).y } }) x y b
  have hF1 : flippedSession (plainModel k) c ({ t with target :=
          { S with
            left := (setPositionByOrigin S
              (translateToOriginPoint t.target (getCenterPoint t.target) t.originX t.originY)
              t.originX t.originY).x
            top := (setPositionByOrigin S
              (translateToOriginPoint t.target (getCenterPoint t.target) t.originX t.originY)
              t.originX t.originY).y } }) x y b = { t with target :=
          { S with
            left := (setPositionByOrigin S
              (translateToOriginPoint t.target (getCenterPoint t.target) t.originX t.originY)
              t.originX t.originY).x
            top := (setPositionByOrigin S
              (translateToOriginPoint t.target (getCenterPoint t.target) t.originX t.originY)
              t.originX t.originY).y } } := by
    have hFx : (flippedSession (plainModel k) c t x y b).originX = t.originX := by rw [hF]
    have hFy : (flippedSession (plainModel k) c t x y b).originY = t.originY := by rw [hF]
    have hFsx : (flippedSession (plainModel k) c t x y b).mouseXSign = t.mouseXSign := by
      rw [hF]
    have hFsy : (flippedSession (plainModel k) c t x y b).mouseYSign = t.mouseYSign := by
      rw [hF]
    apply flippedSession_fixed
    · rw [gx, hSF]
      exact fx.symm.trans hFx
    · rw [gy, hSF]
      exact fy.symm.trans hFy
    · rw [gsx, hA]
      exact fsx.symm.trans hFsx
    · rw [gsy, hA]
      exact fsy.symm.trans hFsy
  have ha := plain_anchor_fixed S
    (translateToOriginPoint t.target (getCenterPoint t.target) t.originX t.originY)
    t.originX t.originY
  have hP : (plainModel k).setPositionByOrigin ({ t with target :=
          { S with
            left := (setPositionByOrigin S
              (translateToOriginPoint t.target (getCenterPoint t.target) t.originX t.originY)
              t.originX t.originY).x
            top := (setPositionByOrigin S
              (translateToOriginPoint t.target (getCenterPoint t.target) t.originX t.originY)
              t.originX t.originY).y } }).target
      ((plainModel k).translateToOriginPoint ({ t with target :=
          { S with
            left := (setPositionByOrigin S
              (translateToOriginPoint t.target (getCenterPoint t.target) t.originX t.originY)
              t.originX t.originY).x
            top := (setPositionByOrigin S
              (translateToOriginPoint t.target (getCenterPoint t.target) t.originX t.originY)
              t.originX t.originY).y } }).target
        ((plainModel k).getCenterPoint ({ t with target :=
          { S with
            left := (setPositionByOrigin S
              (translateToOriginPoint t.target (getCenterPoint t.target) t.originX t.originY)
              t.originX t.originY).x
            top := (setPositionByOrigin S
              (translateToOriginPoint t.target (getCenterPoint t.target) t.originX t.originY)
              t.originX t.originY).y } }).target) ({ t with target :=
          { S with
            left := (setPositionByOrigin S
              (translateToOriginPoint t.target (getCenterPoint t.target) t.originX t.originY)
              t.originX t.originY).x
            top := (setPositionByOrigin S
              (translateToOriginPoint t.target (getCenterPoint t.target) t.originX t.originY)
              t.originX t.originY).y } }).originX ({ t with target :=
          { S with
            left := (setPositionByOrigin S
              (translateToOriginPoint t.target (getCenterPoint t.target) t.originX t.originY)
              t.originX t.originY).x
            top := (setPositionByOrigin S
              (translateToOriginPoint t.target (getCenterPoint t.target) t.originX t.originY)
              t.originX t.originY).y } }).originY)
      ({ t with target :=
          { S with
            left := (setPositionByOrigin S
              (translateToOriginPoint t.target (getCenterPoint t.target) t.originX t.originY)
              t.originX t.originY).x
            top := (setPositionByOrigin S
              (translateToOriginPoint t.target (getCenterPoint t.target) t.originX t.originY)
              t.originX t.originY).y } }).originX ({ t with target :=
          { S with
            left := (setPositionByOrigin S
              (translateToOriginPoint t.target (getCenterPoint t.target) t.originX t.originY)
              t.originX t.originY).x
            top := (setPositionByOrigin S
              (translateToOriginPoint t.target (getCenterPoint t.target) t.originX t.originY)
              t.originX t.originY).y } }).originY =
      setPositionByOrigin S
        (translateToOriginPoint t.target (getCenterPoint t.target) t.originX t.originY)
        t.originX t.originY := by
    show setPositionByOrigin _ (translateToOriginPoint _ (getCenterPoint _) _ _) _ _ = _
    rw [ha]
    rfl
  rw [scaleObject_unlocked (plainModel k) c _ x y b hl1, hF1, hST, hP]


/-- C18 (as stated, refuted): begun with the alt key on shape A (anchor
'center', sign flags 1): one call `_scaleObject(0, 0, 'equally')` leaves
scaleX = -1 and mouseXSign = -1, and the same call once more leaves
scaleX = 1, so two calls do not leave the state of one call. -/
theorem scale_twice_differs :
    ∃ t0, beginOn (some Corner.br) altEvent shapeA = some t0 ∧
      t0.mouseXSign = 1 ∧
      (_scaleObject (plainModel none) emptyCanvas t0 0 0 ScaleBy.equally).mouseXSign = -1 ∧
      (_scaleObject (plainModel none) emptyCanvas t0 0 0 ScaleBy.equally).target.scaleX = -1 ∧
      (_scaleObject (plainModel none) emptyCanvas
        (_scaleObject (plainModel none) emptyCanvas t0 0 0 ScaleBy.equally)
        0 0 ScaleBy.equally).target.scaleX = 1 := by
  refine ⟨_, rfl, ?_⟩
  simp [_scaleObject, applyScale, checkFlipped, _resetCurrentTransform, plainModel,
    emptyCanvas, shapeA, altEvent, adjustLocal, adjustPadding, toLocalPoint,
    translateToOriginPoint, getCenterPoint, translateToCenterPoint, halfWidth, halfHeight,
    getPointer, setPositionByOrigin]
  norm_num

/-- C18 (amended): with the unrotated geometry, for every session state,
pointer (x, y) and mode, when a call `_scaleObject(x, y, by)` leaves the
session's anchor (originX, originY) and sign flags (mouseXSign, mouseYSign)
as they were, calling it a second time leaves the target and the session in
the state of the first call. -/
theorem scaleObject_twice_without_flip (k : Option Corner) (c : Canvas) (t : Transform)
    (x y : ℚ) (b : ScaleBy)
    (hox : (_scaleObject (plainModel k) c t x y b).originX = t.originX)
    (hoy : (_scaleObject (plainModel k) c t x y b).originY = t.originY)
    (hsx : (_scaleObject (plainModel k) c t x y b).mouseXSign = t.mouseXSign)
    (hsy : (_scaleObject (plainModel k) c t x y b).mouseYSign = t.mouseYSign) :
    _scaleObject (plainModel k) c (_scaleObject (plainModel k) c t x y b) x y b =
      _scaleObject (plainModel k) c t x y b := by
  by_cases h : (t.target.lockScalingX && t.target.lockScalingY) = true
  · rw [scaleObject_locked _ c t x y b h, scaleObject_locked _ c t x y b h]
  · have h' : (t.target.lockScalingX && t.target.lockScalingY) = false := by simpa using h
    have E1 := scaleObject_unlocked (plainModel k) c t x y b h'
    have hF : flippedSession (plainModel k) c t x y b = t := by
      rw [E1] at hox hoy hsx hsy
      exact flippedSession_fixed _ c t x y b hox hoy hsx hsy
    rw [hF] at E1
    rw [E1]
    exact plain_second_call k c t x y b _ rfl h' hF

/-- Witness for C18 (amended): in the scenario the call
`_scaleObject(210, 105, 'equally')` keeps the anchor (left, top) and the sign
flags, and a second such call changes nothing more. -/
theorem scaleObject_twice_without_flip_witness :
    ∃ t0, beginOn (some Corner.br) grabEvent shapeA = some t0 ∧
      (_scaleObject (plainModel none) emptyCanvas t0 210 105 ScaleBy.equally).originX
        = t0.originX ∧
      _scaleObject (plainModel none) emptyCanvas
          (_scaleObject (plainModel none) emptyCanvas t0 210 105 ScaleBy.equally)
          210 105 ScaleBy.equally =
        _scaleObject (plainModel none) emptyCanvas t0 210 105 ScaleBy.equally := by
  refine ⟨_, rfl, ?_, ?_⟩
  · simp [_scaleObject, applyScale, checkFlipped, _resetCurrentTransform, plainModel,
      emptyCanvas, shapeA, grabEvent, adjustLocal, adjustPadding, toLocalPoint,
      translateToOriginPoint, getCenterPoint, translateToCenterPoint, halfWidth, halfHeight,
      getPointer, setPositionByOrigin]
    norm_num
  · refine scaleObject_twice_without_flip _ _ _ _ _ _ ?_ ?_ ?_ ?_ <;>
      simp [_scaleObject, applyScale, checkFlipped, _resetCurrentTransform, plainModel,
        emptyCanvas, shapeA, grabEvent, adjustLocal, adjustPadding, toLocalPoint,
        translateToOriginPoint, getCenterPoint, translateToCenterPoint, halfWidth, halfHeight,
        getPointer, setPositionByOrigin] <;>
      norm_num


/-! ### C21 -/

theorem containsPoint_of_corner (M : ObjectModel) (c : Canvas) (pointer : Point) (o : Ref)
    (h : (M._findTargetCorner (c.shape o) pointer c._offset).isSome = true) :
    containsPoint M c pointer o = true := by
  simp [containsPoint, h]

/-- C21 (as stated, refuted): the last object drawn with handles (object 1)
exists, is visible and contains the pointer (`canvas.containsPoint` is
truthy), with `controlsAboveOverlay` set, but the pointer is on none of its
handles: `findTarget` does not return it (the cache is blank and it returns
null). -/
theorem fast_path_needs_handle :
    lastDrawn.controlsAboveOverlay = true ∧
    lastDrawn.lastRenderedObjectWithControlsAboveOverlay = some 1 ∧
    (lastDrawn.shape 1).visible = true ∧
    containsPoint insideModel lastDrawn { x := 10, y := 10 } 1 = true ∧
    findTarget insideModel lastDrawn { x := 10, y := 10 } false = none := by
  refine ⟨rfl, rfl, rfl, ?_, ?_⟩
  · simp [containsPoint, insideModel]
  · rw [findTarget]
    simp [controlsAboveOverlayTarget, activeGroupTarget, lastDrawn, emptyCanvas, insideModel,
      plainModel, scanPattern_none_iff, pixelObject, cacheWindow]

/-- C21 (amended): whenever `controlsAboveOverlay` is set, the last object
drawn with handles exists, is visible, and the pointer is on one of its
handles (`_findTargetCorner` is truthy, which makes `canvas.containsPoint`
truthy), `findTarget(pointer)` returns that object at once, whatever the
active group and the cached render are; when `controlsAboveOverlay` is not
set or no handle of that object is hit, this first guard returns nothing. -/
theorem findTarget_fast_path (M : ObjectModel) (c : Canvas) (pointer : Point)
    (skipGroup : Bool) (o : Ref)
    (hc : c.controlsAboveOverlay = true)
    (hl : c.lastRenderedObjectWithControlsAboveOverlay = some o)
    (hv : (c.shape o).visible = true)
    (hk : (M._findTargetCorner (c.shape o) pointer c._offset).isSome = true) :
    findTarget M c pointer skipGroup = some o ∧
    containsPoint M c pointer o = true ∧
    (∀ c' : Canvas, c'.controlsAboveOverlay = false →
      controlsAboveOverlayTarget M c' pointer = none) ∧
    (∀ (c' : Canvas) (o' : Ref), c'.lastRenderedObjectWithControlsAboveOverlay = some o' →
      M._findTargetCorner (c'.shape o') pointer c'._offset = none →
      controlsAboveOverlayTarget M c' pointer = none) := by
  have hcp := containsPoint_of_corner M c pointer o hk
  refine ⟨?_, hcp, ?_, ?_⟩
  · simp [findTarget, controlsAboveOverlayTarget, hc, hl, hv, hk, hcp]
  · intro c' h
    simp [controlsAboveOverlayTarget, h]
  · intro c' o' h1 h2
    simp [controlsAboveOverlayTarget, h1, h2]

/-- Witness for C21 (amended): on the canvas whose last object drawn with
handles is object 1, a pointer on its 'br' handle makes `findTarget` return
object 1. -/
theorem findTarget_fast_path_witness :
    lastDrawn.controlsAboveOverlay = true ∧
    ((plainModel (some Corner.br))._findTargetCorner (lastDrawn.shape 1) { x := 10, y := 10 }
      lastDrawn._offset).isSome = true ∧
    findTarget (plainModel (some Corner.br)) lastDrawn { x := 10, y := 10 } false = some 1 :=
  ⟨rfl, rfl,
    (findTarget_fast_path (plainModel (some Corner.br)) lastDrawn { x := 10, y := 10 } false 1
      rfl rfl rfl rfl).1⟩

/-! ### C23 -/

/-- C23 (as stated, refuted): the pointer (10, 10) lies in no object
(`canvas.containsPoint` is false for every object), there is no active group
and the cache pixel at the pointer (byte offset 96) carries no colour, yet
`findTarget` returns object 7, whose colour is at the corner pixel of the
sampled window (byte offset 0). -/
theorem findTarget_finds_neighbour :
    (∀ o : Ref, containsPoint (pixelModel 0 7) emptyCanvas { x := 10, y := 10 } o = false) ∧
    getActiveGroup emptyCanvas = none ∧
    pixelObject (pixelModel 0 7) (cacheWindow (pixelModel 0 7) { x := 10, y := 10 }) 96
      = none ∧
    findTarget (pixelModel 0 7) emptyCanvas { x := 10, y := 10 } false = some 7 := by
  refine ⟨?_, rfl, ?_, ?_⟩
  · intro o
    simp [containsPoint, pixelModel, plainModel]
  · simp [pixelObject, cacheWindow, pixelModel]
  · simp [findTarget, controlsAboveOverlayTarget, activeGroupTarget, emptyCanvas,
      findTargetPattern, scanPattern, pixelObject, cacheWindow, pixelModel]

/-- C23 (amended): for every pointer p that lies in no object
(`canvas.containsPoint(p, o)` is false for every object o, the active group
included) and whose whole 7x7 cache window carries no shape's colour,
`findTarget(p)` returns null. -/
theorem findTarget_outside_everything (M : ObjectModel) (c : Canvas) (pointer : Point)
    (skipGroup : Bool)
    (hout : ∀ o : Ref, containsPoint M c pointer o = false)
    (hwin : ∀ k, k < 49 → pixelObject M (cacheWindow M pointer) (4 * k) = none) :
    findTarget M c pointer skipGroup = none := by
  have hfast : controlsAboveOverlayTarget M c pointer = none := by
    unfold controlsAboveOverlayTarget
    split_ifs
    · split
      · rename_i o _
        simp [hout o]
      · rfl
    · rfl
  have hgroup : activeGroupTarget M c pointer skipGroup = none := by
    unfold activeGroupTarget
    split
    · rename_i g _
      simp [hout g]
    · rfl
  simp only [findTarget, hfast, hgroup, scanPattern_none_iff]
  intro x hx
  obtain ⟨k, hk, rfl⟩ := findTargetPattern_within x hx
  exact hwin k hk

/-- Witness for C23 (amended): a blank cache and no object under the pointer
give null. -/
theorem findTarget_outside_everything_witness :
    (∀ o : Ref, containsPoint (plainModel none) emptyCanvas { x := 10, y := 10 } o = false) ∧
    findTarget (plainModel none) emptyCanvas { x := 10, y := 10 } false = none :=
  ⟨fun o => by simp [containsPoint, plainModel],
    findTarget_outside_everything (plainModel none) emptyCanvas { x := 10, y := 10 } false
      (fun o => by simp [containsPoint, plainModel])
      (fun k _ => by simp [pixelObject, plainModel])⟩


/-! ### C27 -/

/-- C27: the scan table `findTargetPattern` has 49 entries, which are exactly
the byte offsets 0, 4, ..., 192 each once, every entry being 4 * (7 * row +
col) of its pixel; its first entry is the centre pixel (offset 96, row 3,
column 3); and along the table the ring distance max(|row - 3|, |col - 3|)
is 0 once, then 1 eight times, then 2 sixteen times, then 3 twenty-four
times, so it never decreases. -/
theorem findTargetPattern_centre_outward :
    findTargetPatternLength = 49 ∧
    findTargetPattern.Nodup ∧
    (∀ k, k < 49 → 4 * k ∈ findTargetPattern) ∧
    (∀ x ∈ findTargetPattern, ∃ k, k < 49 ∧ x = 4 * k) ∧
    (∀ x ∈ findTargetPattern, x = 4 * (7 * pixelRow x + pixelCol x)) ∧
    findTargetPattern.head? = some 96 ∧ pixelRow 96 = 3 ∧ pixelCol 96 = 3 ∧
    findTargetPattern.map ringDistance =
      List.replicate 1 0 ++ List.replicate 8 1 ++ List.replicate 16 2 ++ List.replicate 24 3 ∧
    List.Pairwise (fun a b => ringDistance a ≤ ringDistance b) findTargetPattern := by
  refine ⟨by decide, by decide, findTargetPattern_covers, findTargetPattern_within,
    by decide, by decide, by decide, by decide, by decide, by decide⟩

/-! ### C22 -/

theorem findTargetPattern_rings :
    List.Pairwise (fun a b => ringDistance a ≤ ringDistance b) findTargetPattern := by
  decide

theorem scanPattern_first (M : ObjectModel) (d : Nat → Nat) (S : Ref) (l : List Nat) :
    scanPattern M d none l = some S →
      ∃ pre q post, l = pre ++ q :: post ∧ pixelObject M d q = some S ∧
        ∀ x ∈ pre, pixelObject M d x = none := by
  induction l with
  | nil => simp [scanPattern]
  | cons a rest ih =>
    intro h
    cases ha : pixelObject M d a with
    | some t =>
      have ht : t = S := by simpa [scanPattern, ha, scanPattern_some] using h
      exact ⟨[], a, rest, rfl, ht ▸ ha, by simp⟩
    | none =>
      have h' : scanPattern M d none rest = some S := by simpa [scanPattern, ha] using h
      obtain ⟨pre, q, post, hl, hq, hpre⟩ := ih h'
      refine ⟨a :: pre, q, post, by simp [hl], hq, ?_⟩
      intro x hx
      rcases List.mem_cons.mp hx with rfl | hx
      · exact ha
      · exact hpre x hx

/-- C22 (as stated, refuted): the pixel at byte offset 128 (row 4, column 4)
decodes to object 1 and no other pixel does, the pixel at offset 124 (row 4,
column 3) decodes to object 2 and is strictly closer to the centre (squared
distance 1 against 2), and `findTarget` returns object 1. -/
theorem nearer_pixel_not_preferred :
    findTarget twoPixelModel emptyCanvas { x := 10, y := 10 } false = some 1 ∧
    (∀ k, k < 49 →
      pixelObject twoPixelModel (cacheWindow twoPixelModel { x := 10, y := 10 }) (4 * k)
        = some 1 → 4 * k = 128) ∧
    pixelObject twoPixelModel (cacheWindow twoPixelModel { x := 10, y := 10 }) 124
      = some 2 ∧
    squaredDistance 124 < squaredDistance 128 := by
  refine ⟨?_, ?_, ?_, by decide⟩
  · simp [findTarget, controlsAboveOverlayTarget, activeGroupTarget, emptyCanvas,
      findTargetPattern, scanPattern, pixelObject, cacheWindow, twoPixelModel]
  · intro k hk h
    simp only [pixelObject, cacheWindow, twoPixelModel] at h
    interval_cases k <;> simp_all
  · simp [pixelObject, cacheWindow, twoPixelModel]

/-- C22 (amended): when `findTarget` falls through to pixel sampling and
returns a shape S, S was found at a sampled pixel q of the table such that no
sampled pixel of a strictly smaller ring (ring distance max(|row - 3|,
|col - 3|) to the centre pixel) decodes to a shape; within one ring the order
of the table decides, not the straight-line distance. -/
theorem findTarget_nearest_ring (M : ObjectModel) (c : Canvas) (pointer : Point)
    (skipGroup : Bool) (S : Ref)
    (hfast : controlsAboveOverlayTarget M c pointer = none)
    (hgroup : activeGroupTarget M c pointer skipGroup = none)
    (hS : findTarget M c pointer skipGroup = some S) :
    ∃ q ∈ findTargetPattern,
      pixelObject M (cacheWindow M pointer) q = some S ∧
      ∀ k, k < 49 → ringDistance (4 * k) < ringDistance q →
        pixelObject M (cacheWindow M pointer) (4 * k) = none := by
  have hscan : scanPattern M (cacheWindow M pointer) none findTargetPattern = some S := by
    simpa [findTarget, hfast, hgroup] using hS
  obtain ⟨pre, q, post, hl, hq, hpre⟩ := scanPattern_first M _ S _ hscan
  have hrings := findTargetPattern_rings
  rw [hl] at hrings
  have hpost : ∀ x ∈ q :: post, ringDistance q ≤ ringDistance x := by
    have h2 := (List.pairwise_append.mp hrings).2.1
    intro x hx
    rcases List.mem_cons.mp hx with rfl | hx
    · exact le_refl _
    · exact (List.pairwise_cons.mp h2).1 x hx
  refine ⟨q, by rw [hl]; simp, hq, ?_⟩
  intro k hk hlt
  have hmem : 4 * k ∈ pre ++ q :: post := hl ▸ findTargetPattern_covers k hk
  rcases List.mem_append.mp hmem with h | h
  · exact hpre _ h
  · exact absurd (hpost _ h) (not_le.mpr hlt)

/-- Witness for C22 (amended): with the colour of object 7 only at the corner
pixel (byte offset 0, ring 3), `findTarget` returns object 7 and no pixel of a
smaller ring decodes to a shape. -/
theorem findTarget_nearest_ring_witness :
    findTarget (pixelModel 0 7) emptyCanvas { x := 10, y := 10 } false = some 7 ∧
    ∃ q ∈ findTargetPattern,
      pixelObject (pixelModel 0 7) (cacheWindow (pixelModel 0 7) { x := 10, y := 10 }) q
        = some 7 ∧
      ∀ k, k < 49 → ringDistance (4 * k) < ringDistance q →
        pixelObject (pixelModel 0 7) (cacheWindow (pixelModel 0 7) { x := 10, y := 10 })
          (4 * k) = none := by
  have h7 : findTarget (pixelModel 0 7) emptyCanvas { x := 10, y := 10 } false = some 7 := by
    simp [findTarget, controlsAboveOverlayTarget, activeGroupTarget, emptyCanvas,
      findTargetPattern, scanPattern, pixelObject, cacheWindow, pixelModel]
  exact ⟨h7, findTarget_nearest_ring (pixelModel 0 7) emptyCanvas { x := 10, y := 10 } false 7
    (by simp [controlsAboveOverlayTarget, emptyCanvas])
    (by simp [activeGroupTarget, emptyCanvas]) h7⟩


/-! ### C24 -/

/-- C24 (as stated, refuted): the active group 10 has the members 1 and 2 and
there is no active object; after `_handleGroupLogic` removes member 2 the
active group is null, but `getActiveObject()` is still null and not the
remaining member 1. -/
theorem collapsed_group_leaves_no_active_object :
    groupOfTwo.members 10 = [1, 2] ∧ getActiveObject groupOfTwo = none ∧
    getActiveGroup (_handleGroupLogic (plainModel none) groupOfTwo shiftClick 2) = none ∧
    (_handleGroupLogic (plainModel none) groupOfTwo shiftClick 2).members 10 = [1] ∧
    getActiveObject (_handleGroupLogic (plainModel none) groupOfTwo shiftClick 2) = none ∧
    getActiveObject (_handleGroupLogic (plainModel none) groupOfTwo shiftClick 2)
      ≠ some 1 := by
  have ho : getActiveObject (_handleGroupLogic (plainModel none) groupOfTwo shiftClick 2)
      = none := handleGroupLogic_activeObject (plainModel none) groupOfTwo shiftClick 2
  refine ⟨rfl, rfl, ?_, ?_, ho, ?_⟩
  · simp [_handleGroupLogic, resolveGroupTarget, getActiveGroup, groupOfTwo, emptyCanvas,
      groupContains, groupSize, removeWithUpdate, _resetObjectTransform, setActive,
      discardActiveGroup, setActiveGroup, saveCoords, groupDestroy]
  · simp [_handleGroupLogic, resolveGroupTarget, getActiveGroup, groupOfTwo, emptyCanvas,
      groupContains, groupSize, removeWithUpdate, _resetObjectTransform, setActive,
      discardActiveGroup, setActiveGroup, saveCoords, groupDestroy]
  · rw [ho]
    decide

/-- C24 (amended): when `_handleGroupLogic` removes the target from an active
group of exactly two members, afterwards the active group is null, the torn
down group holds the one remaining member, and `getActiveObject()` is what it
was before the call: the remaining member is the active object only if it
already was. -/
theorem handleGroupLogic_collapse (M : ObjectModel) (c : Canvas) (e : Event)
    (target g t : Ref) (hg : getActiveGroup c = some g)
    (hr : resolveGroupTarget M c e target = some t) (hmem : t ∈ c.members g)
    (hlen : (c.members g).length = 2) :
    getActiveGroup (_handleGroupLogic M c e target) = none ∧
    (_handleGroupLogic M c e target).members g = (c.members g).erase t ∧
    ((_handleGroupLogic M c e target).members g).length = 1 ∧
    getActiveObject (_handleGroupLogic M c e target) = getActiveObject c := by
  have hc : groupContains c g t = true := by simpa [groupContains] using hmem
  have hl1 : ((c.members g).erase t).length = 1 := by
    rw [List.length_erase_of_mem hmem, hlen]
  have hg2 : c._activeGroup = some g := hg
  have hm : (_handleGroupLogic M c e target).members g = (c.members g).erase t := by
    unfold _handleGroupLogic
    simp only [hr, hg]
    simp [hc, groupSize, removeWithUpdate, _resetObjectTransform, setActive, hl1,
      discardActiveGroup, setActiveGroup, getActiveGroup, saveCoords, groupDestroy, hg2]
  refine ⟨?_, hm, by rw [hm, hl1], handleGroupLogic_activeObject M c e target⟩
  unfold _handleGroupLogic
  simp only [hr, hg]
  simp [hc, groupSize, removeWithUpdate, _resetObjectTransform, setActive, hl1,
    discardActiveGroup, setActiveGroup, getActiveGroup, saveCoords, groupDestroy]

/-- Witness for C24 (amended): removing member 2 from the active group [1, 2]
leaves no active group and the group's member list [1]. -/
theorem handleGroupLogic_collapse_witness :
    getActiveGroup groupOfTwo = some 10 ∧ (groupOfTwo.members 10).length = 2 ∧
    getActiveGroup (_handleGroupLogic (plainModel none) groupOfTwo shiftClick 2) = none :=
  ⟨rfl, rfl,
    (handleGroupLogic_collapse (plainModel none) groupOfTwo shiftClick 2 10 2 rfl
      (by simp [resolveGroupTarget, getActiveGroup, groupOfTwo, emptyCanvas])
      (by simp [groupOfTwo]) rfl).1⟩

/-! ### C26 -/

theorem scanAlpha_false_iff (n : Nat) :
    ∀ data : List Nat, data.length ≤ n →
      (scanAlpha data true = false ↔
        ∃ j, 4 * j + 3 < data.length ∧ 0 < data.getD (4 * j + 3) 0) := by
  induction n with
  | zero =>
    intro data h
    have : data = [] := List.length_eq_zero.mp (Nat.le_zero.mp h)
    subst this
    simp [scanAlpha]
  | succ n ih =>
    intro data h
    match data with
    | [] => simp [scanAlpha]
    | [_] => simp [scanAlpha]
    | [_, _] => simp [scanAlpha]
    | [_, _, _] => simp [scanAlpha]
    | r :: g :: b :: temp :: rest =>
      have hrest : rest.length ≤ n := by
        simp only [List.length_cons] at h
        omega
      by_cases ht : temp ≤ 0
      · have ht0 : temp = 0 := Nat.le_zero.mp ht
        subst ht0
        simp only [scanAlpha, le_refl, if_true, ih rest hrest]
        constructor
        · rintro ⟨j, hj, hpos⟩
          refine ⟨j + 1, by simp only [List.length_cons]; omega, ?_⟩
          have : 4 * (j + 1) + 3 = (4 * j + 3) + 4 := by ring
          rw [this]
          simpa [List.getD_cons_succ] using hpos
        · rintro ⟨j, hj, hpos⟩
          cases j with
          | zero => simp at hpos
          | succ j =>
            refine ⟨j, by simp only [List.length_cons] at hj; omega, ?_⟩
            have : 4 * (j + 1) + 3 = (4 * j + 3) + 4 := by ring
            rw [this] at hpos
            simpa [List.getD_cons_succ] using hpos
      · simp only [scanAlpha, ht, if_false, true_iff]
        exact ⟨0, by simp, by simpa using Nat.pos_of_ne_zero (fun h0 => ht (by omega))⟩

/-- C26: `isTargetTransparent(target, x, y)` returns false (opaque) if and
only if at least one alpha byte (index 4j + 3) of the pixel window read back
from the cache context is greater than zero, and true otherwise; and the
target has its `hasBorders` and `transparentCorners` flags, and every other
property, as before the call. -/
theorem isTargetTransparent_iff (draw : FObject → ℚ → ℚ → ℚ → ℚ → List Nat)
    (targetFindTolerance : ℚ) (target : FObject) (x y : ℚ) :
    ((isTargetTransparent draw targetFindTolerance target x y).1 = false ↔
      ∃ j, 4 * j + 3 < (transparencyWindow draw targetFindTolerance target x y).length ∧
        0 < (transparencyWindow draw targetFindTolerance target x y).getD (4 * j + 3) 0) ∧
    ((isTargetTransparent draw targetFindTolerance target x y).1 = true ↔
      ∀ j, 4 * j + 3 < (transparencyWindow draw targetFindTolerance target x y).length →
        (transparencyWindow draw targetFindTolerance target x y).getD (4 * j + 3) 0 = 0) ∧
    (isTargetTransparent draw targetFindTolerance target x y).2.hasBorders
      = target.hasBorders ∧
    (isTargetTransparent draw targetFindTolerance target x y).2.transparentCorners
      = target.transparentCorners ∧
    (isTargetTransparent draw targetFindTolerance target x y).2 = target := by
  have h := scanAlpha_false_iff _ (transparencyWindow draw targetFindTolerance target x y)
    (le_refl _)
  refine ⟨h, ?_, rfl, rfl, rfl⟩
  rw [← Bool.not_eq_false, show (isTargetTransparent draw targetFindTolerance target x y).1
    = scanAlpha (transparencyWindow draw targetFindTolerance target x y) true from rfl, h]
  simp


/-! ### C25 -/

/-- The behaviour of `createLayer(name, primary)`: it raises exactly when
`name in this.layers` holds, which for a name that `Object.prototype` does
not define means that a layer of that name exists; otherwise `layers[name]`
is the layer element (the lower canvas element when `primary` is truthy, a
new element otherwise), `contexts[name]` is that element's 2d context, and
every other entry of `layers` and `contexts` is unchanged. -/
theorem createLayer_spec (getContext : Element → Nat) (s : LayerStore) (name : String)
    (primary : Bool) :
    ((∃ msg, createLayer getContext s name primary = Except.error msg) ↔
      hasProperty s.layers name = true) ∧
    (name ∉ objectPrototypeNames →
      ((∃ msg, createLayer getContext s name primary = Except.error msg) ↔
        (s.layers name).isSome = true)) ∧
    (hasProperty s.layers name = false →
      ∃ s', createLayer getContext s name primary = Except.ok s' ∧
        s'.layers name = some (if primary then s.lowerCanvasEl else s.nextElement) ∧
        s'.contexts name =
          some (getContext (if primary then s.lowerCanvasEl else s.nextElement)) ∧
        ∀ n, n ≠ name → s'.layers n = s.layers n ∧ s'.contexts n = s.contexts n) := by
  have h1 : (∃ msg, createLayer getContext s name primary = Except.error msg) ↔
      hasProperty s.layers name = true := by
    unfold createLayer
    by_cases h : hasProperty s.layers name = true
    · simp [h]
    · simp [h]
  refine ⟨h1, ?_, ?_⟩
  · intro hn
    rw [h1]
    simp [hasProperty, hn]
  · intro h
    unfold createLayer
    rw [if_neg (by simp [h])]
    cases primary
    · exact ⟨_, rfl, by simp, by simp, fun n hn => by simp [Function.update_noteq hn]⟩
    · exact ⟨_, rfl, by simp, by simp, fun n hn => by simp [Function.update_noteq hn]⟩

/-- C25 (the code at the failing input): on a canvas just constructed, whose
`layers` object has no layer, `createLayer('constructor', primary)` raises
"Layer already exists": the name is found by `name in this.layers` through
`Object.prototype`, although no layer of that name exists. -/
theorem createLayer_inherited_name_raises (getContext : Element → Nat) (primary : Bool) :
    freshLayers.layers "constructor" = none ∧
    createLayer getContext freshLayers "constructor" primary =
      Except.error "Layer already exists" := by
  refine ⟨rfl, ?_⟩
  simp [createLayer, hasProperty, objectPrototypeNames]


end Fabric
